import Mathlib

/-!
# Verification of the claude-research-team decision/control core

A shallow embedding, in Lean 4, of the scoring, injection-decision,
queueing, parsing and formatting logic of the `claude-research-team`
repository, together with theorems settling the frozen claims about it.

Conventions used throughout:

* JavaScript `number` arithmetic is idealised as exact arithmetic over a
  linear ordered field (`ℚ` where the development needs to compute,
  `ℝ` where `Math.exp` is involved).  Floating-point rounding is out of
  scope of every claim treated here.
* JavaScript strings are modelled by Lean `String`; `s.length` agrees
  with the JS `length` for the inputs considered (code points =
  UTF-16 units for ASCII-range text).
* `Date.now()` and `randomUUID()` are impure inputs of the original
  code; each embedded function receives them as explicit arguments
  (`now`, `freshId`).
* Databases and in-memory maps become explicit pure state, threaded
  through the embedded operations.
-/

namespace ResearchTeam

/-! ## JS primitives -/

/-- JS `Array.prototype.slice(0, e)` / `String.prototype.slice(0, e)`:
a negative end counts from the end of the string, and the result is
clamped to the string. -/
def jsSliceTo (s : String) (e : ℤ) : String :=
  let len : ℤ := (s.length : ℤ)
  let stop : ℤ := if e < 0 then max (len + e) 0 else min e len
  String.mk (s.data.take stop.toNat)

/-- JS `x || d` on an optional number: `undefined`, `null` and `0` are
falsy and give the default. -/
def jsOrNum {α : Type} [LinearOrderedField α] (v : Option α) (d : α) : α :=
  match v with
  | none => d
  | some x => if x = 0 then d else x

/-- JS `x || d` on an optional string: `undefined` and `""` are falsy. -/
def jsOrStr (v : Option String) (d : String) : String :=
  match v with
  | none => d
  | some x => if x = "" then d else x

/-- JS `Math.round`: round half up. -/
def jsRound (q : ℚ) : ℤ := ⌊q + 1/2⌋

/-- Lower-case an ASCII string (JS `toLowerCase` on the ASCII range). -/
def jsToLower (s : String) : String := String.mk (s.data.map Char.toLower)

/-- JS `String.prototype.includes`: substring containment. -/
def jsIncludes (hay needle : String) : Bool :=
  decide (needle.data <:+: hay.data)

/-! ## Adapter: relevance scoring (src/adapters/claude-mem-adapter.ts)

The `KnowledgeCandidate` type and its scoring functions, embedded
generically over a linear ordered field so that the same definitions
serve the computable (`ℚ`) theorems and the `Real.exp`-based recency
theorems. -/

/-- The `source` discriminator of a `KnowledgeCandidate`. -/
inductive KSource where
  | observation
  | research
  | summary
deriving DecidableEq, Repr

/-- `KnowledgeCandidate.content` (payload of a candidate). The TS field
`type` is called `ctype` here because `type` is a Lean keyword. -/
structure KContent where
  id : ℤ
  title : String
  summary : String
  details : Option String := none
  facts : Option (List String) := none
  ctype : Option String := none
  depth : Option String := none
deriving DecidableEq, Repr

/-- `KnowledgeCandidate.relevance`: the five relevance factors. -/
structure KRelevance (α : Type) where
  textSimilarity : α
  recency : α
  projectMatch : Bool
  typeMatch : α
  confidence : α
deriving DecidableEq, Repr

/-- A unified knowledge candidate with relevance scoring. -/
structure KnowledgeCandidate (α : Type) where
  source : KSource
  content : KContent
  relevance : KRelevance α
  finalScore : α
  project : String
  createdAt : α
  filesModified : Option (List String) := none
  filesRead : Option (List String) := none
deriving DecidableEq, Repr

/-- Weight configuration for relevance scoring. -/
structure RelevanceWeights (α : Type) where
  textSimilarity : α
  recency : α
  projectMatch : α
  typeMatch : α
  confidence : α
deriving DecidableEq, Repr

/-- `DEFAULT_RELEVANCE_WEIGHTS`. -/
def DEFAULT_RELEVANCE_WEIGHTS {α : Type} [LinearOrderedField α] : RelevanceWeights α :=
  { textSimilarity := 0.35
    recency := 0.15
    projectMatch := 0.15
    typeMatch := 0.15
    confidence := 0.20 }

/-- `calculateRelevance`: the weighted sum of the five factors, with a
boolean project match mapped to `1`/`0.5`, clamped into `[0, 1]`. -/
def calculateRelevance {α : Type} [LinearOrderedField α]
    (candidate : KnowledgeCandidate α) (weights : RelevanceWeights α) : α :=
  let relevance := candidate.relevance
  let score :=
    relevance.textSimilarity * weights.textSimilarity +
    relevance.recency * weights.recency +
    (if relevance.projectMatch then 1 else 0.5) * weights.projectMatch +
    relevance.typeMatch * weights.typeMatch +
    relevance.confidence * weights.confidence
  min 1 (max 0 score)

/-- `calculateRecencyScore`: exponential decay of age, with
`ageDays = ageMs / (1000*60*60*24)` and `Math.exp(-ageDays / 10)`. -/
noncomputable def calculateRecencyScore (createdAt now : ℝ) : ℝ :=
  let ageMs := now - createdAt
  let ageDays := ageMs / (1000 * 60 * 60 * 24)
  Real.exp (-ageDays / 10)

/-- The base score table of `calculateTypeMatchScore`
(`typeScores[type]`, `undefined` when the tag is unknown). -/
def typeScores {α : Type} [LinearOrderedField α] (t : String) : Option α :=
  if t = "discovery" then some 0.9
  else if t = "bugfix" then some 0.8
  else if t = "decision" then some 0.7
  else if t = "feature" then some 0.6
  else if t = "refactor" then some 0.5
  else if t = "change" then some 0.4
  else none

/-- `calculateTypeMatchScore`: per-category base score with contextual
boosts (`typeScores[type] || 0.5`; the table holds no zero, so JS `||`
is exactly the `undefined` default here). -/
def calculateTypeMatchScore {α : Type} [LinearOrderedField α]
    (t : String) (context : Option String) : α :=
  let baseScore : α := jsOrNum (typeScores t) 0.5
  if (context.map (fun c => jsIncludes (jsToLower c) "error")).getD false ∧ t = "bugfix" then
    min 1 (baseScore + 0.2)
  else if (context.map (fun c => jsIncludes (jsToLower c) "decide")).getD false ∧ t = "decision" then
    min 1 (baseScore + 0.2)
  else
    baseScore

/-! ## Adapter: injection type decision -/

/-- The claude-mem slice of the configuration, as consumed by
`determineInjectionType` and `getBestCandidatesForInjection`
(`ClaudeMemConfig` in `types.ts`). -/
structure ClaudeMemConfig (α : Type) where
  memoryOnlyThreshold : α
  combinedThreshold : α
  researchOnlyThreshold : α
  minRelevanceScore : α
deriving DecidableEq, Repr

/-- The result type of `determineInjectionType`. -/
inductive InjectionType where
  | memoryOnly
  | researchOnly
  | combined
  | warning
  | none
deriving DecidableEq, Repr

/-- `determineInjectionType`: fixed precedence over the two best
candidate scores, a missing candidate counting as score `0`
(`memory?.finalScore ?? 0`). -/
def determineInjectionType {α : Type} [LinearOrderedField α]
    (config : ClaudeMemConfig α)
    (memory research : Option (KnowledgeCandidate α)) : InjectionType :=
  let memoryScore := (memory.map (fun c => c.finalScore)).getD 0
  let researchScore := (research.map (fun c => c.finalScore)).getD 0
  -- Strong memory match = memory only
  if memoryScore ≥ config.memoryOnlyThreshold ∧ memoryScore > researchScore then
    .memoryOnly
  -- Both above combined threshold = combined
  else if memoryScore ≥ config.combinedThreshold ∧ researchScore ≥ config.combinedThreshold then
    .combined
  -- Research above threshold = research only
  else if researchScore ≥ config.researchOnlyThreshold then
    .researchOnly
  -- Memory above minimum but below "only" threshold
  else if memoryScore ≥ config.minRelevanceScore then
    .memoryOnly
  else
    .none

/-! ## Adapter: unified knowledge search (`searchUnifiedKnowledge`)

The SQL query of `searchUnifiedKnowledge` (an FTS match joined against
`research_tasks`) is abstracted as the list of rows it returned; the
`parseJsonArray` decoding of the JSON-encoded `facts`/`files_*` columns
is modelled by carrying those columns pre-decoded, since no claim
concerns the JSON syntax. -/

/-- One row of the `searchUnifiedKnowledge` query result. `type` is a
Lean keyword, so the `o.type` column is called `rtype`. The `source`
column is the SQL `CASE WHEN rt.id IS NOT NULL` discriminator. -/
structure ObservationRow where
  id : ℤ
  rtype : String
  title : Option String
  subtitle : Option String
  narrative : Option String
  facts : Option (List String)
  project : String
  files_read : Option (List String)
  files_modified : Option (List String)
  created_at_epoch : ℝ
  confidence : Option ℝ
  depth : Option String
  source : KSource

/-- A `Partial<RelevanceWeights>` override. -/
structure PartialRelevanceWeights (α : Type) where
  textSimilarity : Option α := none
  recency : Option α := none
  projectMatch : Option α := none
  typeMatch : Option α := none
  confidence : Option α := none

/-- The spread `{ ...DEFAULT_RELEVANCE_WEIGHTS, ...weights }`. -/
def mergeWeights {α : Type} [LinearOrderedField α]
    (w : PartialRelevanceWeights α) : RelevanceWeights α :=
  { textSimilarity := w.textSimilarity.getD DEFAULT_RELEVANCE_WEIGHTS.textSimilarity
    recency := w.recency.getD DEFAULT_RELEVANCE_WEIGHTS.recency
    projectMatch := w.projectMatch.getD DEFAULT_RELEVANCE_WEIGHTS.projectMatch
    typeMatch := w.typeMatch.getD DEFAULT_RELEVANCE_WEIGHTS.typeMatch
    confidence := w.confidence.getD DEFAULT_RELEVANCE_WEIGHTS.confidence }

/-- The candidate built from one row inside `searchUnifiedKnowledge`:
fixed `textSimilarity = 0.7`, exponential recency, type-match and
project-match factors, then `finalScore := calculateRelevance`. -/
noncomputable def rowToCandidate (now : ℝ) (project context : Option String)
    (mergedWeights : RelevanceWeights ℝ) (row : ObservationRow) :
    KnowledgeCandidate ℝ :=
  let createdAt := row.created_at_epoch
  let obsType := row.rtype
  let obsProject := row.project
  let confidence := jsOrNum row.confidence 0.5
  let recencyScore := calculateRecencyScore createdAt now
  let typeMatchScore := calculateTypeMatchScore obsType context
  let projectMatches : Bool := match project with
    | some p => decide (obsProject = p)
    | none => true
  -- Text similarity approximation (FTS rank does not expose one):
  -- a base score because FTS matched
  let textSimilarity : ℝ := 0.7
  let candidate : KnowledgeCandidate ℝ :=
    { source := row.source
      content := { id := row.id
                   title := jsOrStr row.title ""
                   summary := jsOrStr row.subtitle ""
                   details := row.narrative
                   facts := row.facts
                   ctype := some obsType
                   depth := row.depth }
      relevance := { textSimilarity := textSimilarity
                     recency := recencyScore
                     projectMatch := projectMatches
                     typeMatch := typeMatchScore
                     confidence := confidence }
      finalScore := 0
      project := obsProject
      createdAt := createdAt
      filesModified := row.files_modified
      filesRead := row.files_read }
  { candidate with finalScore := calculateRelevance candidate mergedWeights }

/-- `searchUnifiedKnowledge`, from the returned rows onwards: map every
row to a scored candidate, sort by final score descending, truncate to
`limit`. -/
noncomputable def searchUnifiedKnowledge (rows : List ObservationRow) (now : ℝ)
    (limit : ℕ) (project context : Option String)
    (weights : PartialRelevanceWeights ℝ) : List (KnowledgeCandidate ℝ) :=
  let mergedWeights := mergeWeights weights
  let candidates := rows.map (rowToCandidate now project context mergedWeights)
  (candidates.insertionSort (fun a b => b.finalScore ≤ a.finalScore)).take limit

/-- A candidate rescored as if created at `createdAt` (all other
relevance factors unchanged), as `searchUnifiedKnowledge` scores it:
`recency := calculateRecencyScore createdAt now`, final score by
`calculateRelevance` under the default weights. -/
noncomputable def scoreAtCreation (c : KnowledgeCandidate ℝ) (createdAt now : ℝ) : ℝ :=
  calculateRelevance
    { c with relevance := { c.relevance with recency := calculateRecencyScore createdAt now } }
    DEFAULT_RELEVANCE_WEIGHTS

/-! ## Regex-as-parser infrastructure

The coordinator parses generated text with a handful of JavaScript
regular expressions.  Each one is embedded as a deterministic
character-level matcher: an "at this position" matcher plus a scan
over all start positions (JS `String.match` finds the leftmost match).
The lazy groups `(.+?)(?=TAG|$)` become "skip the greedy whitespace,
force one character, then stop at the earliest stopper occurrence". -/

/-- JS `\w`: ASCII letters, digits and underscore. -/
def isWordCh (c : Char) : Bool :=
  (('a' ≤ c ∧ c ≤ 'z') ∨ ('A' ≤ c ∧ c ≤ 'Z') ∨ ('0' ≤ c ∧ c ≤ '9') ∨ c = '_' : Prop)

/-- JS `\s` restricted to the ASCII range (space, tab, LF, VT, FF, CR);
the Unicode space classes never occur in the inputs considered. -/
def isSpaceCh (c : Char) : Bool :=
  (c = ' ' ∨ c = '\t' ∨ c = '\n' ∨ c = '\r'
    ∨ c = Char.ofNat 11 ∨ c = Char.ofNat 12 : Prop)

/-- JS `\d`. -/
def isDigitCh (c : Char) : Bool := ('0' ≤ c ∧ c ≤ '9' : Prop)

/-- JS `String.prototype.trim` (whitespace stripped from both ends). -/
def jsTrim (s : String) : String :=
  String.mk (((s.data.dropWhile isSpaceCh).reverse.dropWhile isSpaceCh).reverse)

/-- Split on every occurrence of a character (structural worker;
`acc` holds the current piece reversed). -/
def splitCharAux (sep : Char) (acc : List Char) : List Char → List (List Char)
  | [] => [acc.reverse]
  | c :: t =>
    if c = sep then acc.reverse :: splitCharAux sep [] t
    else splitCharAux sep (c :: acc) t

/-- JS `s.split('/')`-style single-character split (empties kept). -/
def jsSplitChar (sep : Char) (s : String) : List String :=
  (splitCharAux sep [] s.data).map String.mk

/-- Split on every whitespace character; JS `split(/\s+/)` differs
only by empty pieces between adjacent separators, which every caller
filters out by length. -/
def splitSpaceAux (acc : List Char) : List Char → List (List Char)
  | [] => [acc.reverse]
  | c :: t =>
    if isSpaceCh c then acc.reverse :: splitSpaceAux [] t
    else splitSpaceAux (c :: acc) t

/-- Decimal digits to a natural number. -/
def digitsToNat (l : List Char) : ℕ :=
  l.foldl (fun n c => 10 * n + (c.toNat - 48)) 0

/-- JS `parseFloat` on a string drawn from `[\d.]+`: leading digits, an
optional point and fraction digits; `none` models `NaN` (no digit
parsed). -/
def jsParseFloat (l : List Char) : Option ℚ :=
  let intPart := l.takeWhile isDigitCh
  let rest := l.drop intPart.length
  match rest with
  | '.' :: r2 =>
    let frac := r2.takeWhile isDigitCh
    if intPart.isEmpty ∧ frac.isEmpty then none
    else some ((digitsToNat intPart : ℚ) + (digitsToNat frac : ℚ) / (10 : ℚ) ^ frac.length)
  | _ => if intPart.isEmpty then none else some (digitsToNat intPart : ℚ)

/-- Consume a literal (case-insensitively when `ci`), returning the
remainder. -/
def consumeLit (ci : Bool) : List Char → List Char → Option (List Char)
  | [], l => some l
  | _ :: _, [] => none
  | c :: cs, x :: xs =>
    if (if ci then c.toLower = x.toLower else c = x) then consumeLit ci cs xs else none

/-- Leftmost-match search: try the positional matcher at every start
position, earliest success wins. -/
def scanFirst {α : Type} (p : List Char → Option α) : List Char → Option α
  | [] => p []
  | l@(_ :: t) =>
    match p l with
    | some a => some a
    | none => scanFirst p t

/-- Does one of the stoppers start here? -/
def startsWithStopper (ci : Bool) (stoppers : List (List Char)) (l : List Char) : Bool :=
  stoppers.any (fun s => (consumeLit ci s l).isSome)

/-- Characters up to (excluding) the earliest stopper occurrence. -/
def takeUntilStopper (ci : Bool) (stoppers : List (List Char)) : List Char → List Char
  | [] => []
  | c :: t =>
    if startsWithStopper ci stoppers (c :: t) then []
    else c :: takeUntilStopper ci stoppers t

/-- The trimmed capture of `TAG\s*(.+?)(?=STOP…|$)` (dot-all, lazy),
matched at a position right after `TAG`: greedy whitespace, one forced
character, then up to the earliest stopper.  A whitespace-only
remainder backtracks into a whitespace capture, which trims to `""`. -/
def lazyCapture (ci : Bool) (stoppers : List (List Char)) (rest : List Char) : String :=
  let body := rest.dropWhile isSpaceCh
  match body with
  | [] => ""
  | c :: t => jsTrim (String.mk (c :: takeUntilStopper ci stoppers t))

/-- Leftmost occurrence of `TAG` followed by a non-empty remainder
(`TAG\s*(.+?)…` needs at least one further character), returning that
remainder. -/
def afterTag (ci : Bool) (tag : List Char) : List Char → Option (List Char) :=
  scanFirst fun l => (consumeLit ci tag l).bind fun r => if r.isEmpty then none else some r

/-- The extraction `response.match(/TAG\s*(.+?)(?=STOP…|$)/s)?.[1].trim()`. -/
def extractLazy (ci : Bool) (tag : String) (stoppers : List String) (l : List Char) : Option String :=
  (afterTag ci tag.data l).map (lazyCapture ci (stoppers.map String.data))

/-! ## Coordinator (src/agents/coordinator.ts)

The text-generation collaborator (`callClaude`/`queryAI`) is an
external effect; every embedded coordinator phase receives its outcome
as an explicit `Except String String` (exception or response text). -/

/-- A planned step for specialists.  The TS annotation narrows
`specialist` to a union type, but the parser accepts any `\w+` word, so
the field is a plain string here. -/
structure PlannedStep where
  specialist : String
  query : String
  priority : ℕ
  rationale : Option String := none
deriving DecidableEq, Repr

/-- The coordinator's research plan. -/
structure ResearchPlan where
  strategy : String
  nextSteps : List PlannedStep
  rationale : String
deriving DecidableEq, Repr

/-- A pivot suggestion (`urgency` is one of `low|medium|high`). -/
structure PivotSuggestion where
  alternative : String
  reason : String
  urgency : String
deriving DecidableEq, Repr

/-- The coordinator's evaluation of findings. -/
structure Evaluation where
  complete : Bool
  confidence : ℚ
  nextSteps : List PlannedStep
  pivot : Option PivotSuggestion := none
  synthesis : Option String := none
  reasoning : String
deriving DecidableEq, Repr

/-- Modelled from the spec: the `Finding`/specialist `Result` shape of
`agents/specialists/base.ts`, which is not under `src/`; §6 gives
`Result{title, url, snippet, relevance, source}` and the coordinator
reads `finding.results[i].relevance ?? 0.5`, so `relevance` is
optional. -/
structure SpecialistResult where
  title : String := ""
  url : String := ""
  snippet : Option String := none
  relevance : Option ℚ := none
  source : Option String := none
deriving DecidableEq, Repr

/-- Modelled from the spec: a specialist's finding — the specialist's
name and its returned results (the two fields the coordinator control
flow reads). -/
structure Finding where
  specialist : String
  results : List SpecialistResult
deriving DecidableEq, Repr

/-- A research directive (fields not read by the embedded control flow
are kept optional). -/
structure ResearchDirective where
  query : String
  context : Option String := none
  maxIterations : Option ℕ := none
  sessionId : Option String := none
  projectPath : Option String := none
deriving DecidableEq, Repr

/-- `COMPLETION_THRESHOLD` of the coordinator. -/
def COMPLETION_THRESHOLD : ℚ := 0.85

/-- `calculateAverageRelevance`: mean of `relevance ?? 0.5` over every
result of every finding; `0` for no findings or no results. -/
def calculateAverageRelevance (findings : List Finding) : ℚ :=
  if findings.length = 0 then 0
  else
    let results := (findings.map Finding.results).flatten
    let totalRelevance := (results.map (fun r => r.relevance.getD 0.5)).sum
    let count := results.length
    if 0 < count then totalRelevance / (count : ℚ) else 0

/-- `createFallbackPlan`: the deterministic default plan dispatching the
raw query to the fixed specialists `docs`, `code`, `web`. -/
def createFallbackPlan (query : String) : ResearchPlan :=
  { strategy := "Broad multi-source search"
    rationale := "Fallback plan using primary specialists"
    nextSteps :=
      [ { specialist := "docs", query := query, priority := 1 }
      , { specialist := "code", query := query, priority := 2 }
      , { specialist := "web", query := query, priority := 3 } ] }

/-- The step regex `specialist:(\w+)\s+query:"([^"]+)"\s+priority:(\d+)`
matched at a position, returning the step and the remainder after the
match. -/
def matchStepAt (l : List Char) : Option (PlannedStep × List Char) :=
  (consumeLit false "specialist:".data l).bind fun l1 =>
    let sp := l1.takeWhile isWordCh
    if sp.isEmpty then none else
    let l2 := l1.drop sp.length
    let ws1 := l2.takeWhile isSpaceCh
    if ws1.isEmpty then none else
    (consumeLit false ("query:" ++ "\"").data (l2.drop ws1.length)).bind fun l3 =>
      let q := l3.takeWhile (fun c => c ≠ '"')
      if q.isEmpty then none else
      match l3.drop q.length with
      | '"' :: l4 =>
        let ws2 := l4.takeWhile isSpaceCh
        if ws2.isEmpty then none else
        (consumeLit false "priority:".data (l4.drop ws2.length)).bind fun l5 =>
          let d := l5.takeWhile isDigitCh
          if d.isEmpty then none else
          some ({ specialist := String.mk sp, query := String.mk q,
                  priority := digitsToNat d }, l5.drop d.length)
      | _ => none

/-- The global (`/g`) scan for step matches: leftmost, non-overlapping.
`fuel` bounds the recursion (`l.length` suffices: every iteration
consumes at least one character). -/
def findStepsAux : ℕ → List Char → List PlannedStep
  | 0, _ => []
  | _, [] => []
  | fuel + 1, l@(_ :: t) =>
    match matchStepAt l with
    | some (st, rest) => st :: findStepsAux fuel rest
    | none => findStepsAux fuel t

/-- All step matches in a section. -/
def findSteps (l : List Char) : List PlannedStep := findStepsAux l.length l

/-- The steps parsed from the `STEPS:` section of a plan response. -/
def planSteps (response : String) : List PlannedStep :=
  match afterTag false "STEPS:".data response.data with
  | none => []
  | some rest => findSteps rest

/-- `parsePlanResponse`: strategy and rationale by lazy tagged capture,
steps scanned inside the `STEPS:` section, and a single default `web`
step on the raw query when no step parsed. -/
def parsePlanResponse (response originalQuery : String) : ResearchPlan :=
  let chars := response.data
  let strategy := (extractLazy false "STRATEGY:" ["RATIONALE:", "STEPS:"] chars).getD
    "Multi-source research"
  let rationale := (extractLazy false "RATIONALE:" ["STEPS:"] chars).getD "Default approach"
  let steps := planSteps response
  let nextSteps := if steps.isEmpty then
      [{ specialist := "web", query := originalQuery, priority := 1 }]
    else steps
  { strategy := strategy, nextSteps := nextSteps, rationale := rationale }

/-- `plan`: parse the generation output; any generation failure falls
back to `createFallbackPlan` (the `try`/`catch` of the source). -/
def plan (directive : ResearchDirective) (gen : Except String String) : ResearchPlan :=
  match gen with
  | .ok response => parsePlanResponse response directive.query
  | .error _ => createFallbackPlan directive.query

/-- The `COMPLETE:\s*(true|false)` (case-insensitive) extraction. -/
def extractComplete (l : List Char) : Option Bool :=
  scanFirst (fun s => (consumeLit true "COMPLETE:".data s).bind fun r =>
    let r2 := r.dropWhile isSpaceCh
    match consumeLit true "true".data r2 with
    | some _ => some true
    | none => (consumeLit true "false".data r2).map fun _ => false) l

/-- The `CONFIDENCE:\s*([\d.]+)` extraction (`none` = no match,
`some none` = a match whose `parseFloat` is `NaN`). -/
def extractConfidence (l : List Char) : Option (Option ℚ) :=
  scanFirst (fun s => (consumeLit false "CONFIDENCE:".data s).bind fun r =>
    let r2 := r.dropWhile isSpaceCh
    let cap := r2.takeWhile (fun c => isDigitCh c || c = '.')
    if cap.isEmpty then none else some (jsParseFloat cap)) l

/-- The `urgency:\s*(low|medium|high)` (case-insensitive) extraction,
already lower-cased as the source does. -/
def extractUrgency (l : List Char) : Option String :=
  scanFirst (fun s => (consumeLit true "urgency:".data s).bind fun r =>
    let r2 := r.dropWhile isSpaceCh
    if (consumeLit true "low".data r2).isSome then some "low"
    else if (consumeLit true "medium".data r2).isSome then some "medium"
    else if (consumeLit true "high".data r2).isSome then some "high"
    else none) l

/-- `parseEvaluationResponse`.  A `CONFIDENCE:` match whose
`parseFloat` is `NaN` (unrepresentable here) is modelled as keeping the
prior default. -/
def parseEvaluationResponse (response : String) : Evaluation :=
  let chars := response.data
  let complete := (extractComplete chars).getD false
  let confidence : ℚ := match extractConfidence chars with
    | some (some v) => max 0 (min 1 v)
    | _ => 0.5
  let reasoning := (extractLazy false "REASONING:" ["NEXT_STEPS:", "PIVOT:"] chars).getD
    "Unable to parse evaluation"
  let nextSteps :=
    if complete then []
    else match afterTag false "NEXT_STEPS:".data chars with
      | none => []
      | some rest => findSteps (lazyCapture false ["PIVOT:".data] rest).data
  let pivot := match afterTag false "PIVOT:".data chars with
    | none => none
    | some pivotText =>
      match extractLazy true "alternative:" ["reason:", "urgency:"] pivotText with
      | none => none
      | some alt =>
        some { alternative := alt
               reason := (extractLazy true "reason:" ["urgency:"] pivotText).getD
                 "Alternative approach detected"
               urgency := (extractUrgency pivotText).getD "medium" }
  { complete := complete, confidence := confidence, nextSteps := nextSteps,
    pivot := pivot, reasoning := reasoning }

/-- `evaluate`: the relevance-threshold fast path, then the generation
call with its parse, then the catch-all "assume done" fallback.  The
second component records whether the text-generation call was consumed
(`false` on the fast path: no generation call is made). -/
def evaluate (_directive : ResearchDirective) (findings : List Finding)
    (gen : Except String String) : Evaluation × Bool :=
  if 0 < findings.length
      ∧ COMPLETION_THRESHOLD < calculateAverageRelevance findings
      ∧ 2 ≤ findings.length then
    ({ complete := true
       confidence := calculateAverageRelevance findings
       nextSteps := []
       reasoning := "High confidence findings from multiple specialists" }, false)
  else
    match gen with
    | .ok response => (parseEvaluationResponse response, true)
    | .error _ =>
      ({ complete := true
         confidence := calculateAverageRelevance findings
         nextSteps := []
         reasoning := "Evaluation failed, returning collected findings" }, true)

/-! ## Task and session data model (types.ts) -/

/-- `ResearchDepth`. -/
inductive ResearchDepth where
  | quick
  | medium
  | deep
deriving DecidableEq, Repr

/-- `ResearchStatus` (the task state machine). -/
inductive ResearchStatus where
  | queued
  | running
  | completed
  | failed
  | injected
deriving DecidableEq, Repr

/-- `TriggerSource`. -/
inductive TriggerSource where
  | user_prompt
  | tool_output
  | manual
  | scheduled
deriving DecidableEq, Repr

/-- `ResearchSource`. -/
structure ResearchSource where
  title : String
  url : String
  snippet : Option String := none
  relevance : ℚ
deriving DecidableEq, Repr

/-- `ResearchResult` (the `pivot` field is read by
`formatTaskInjection`). -/
structure ResearchResult where
  summary : String
  fullContent : String
  sources : List ResearchSource
  tokensUsed : ℤ
  confidence : ℚ
  pivot : Option PivotSuggestion := none
deriving DecidableEq, Repr

/-- `ResearchTask`. Timestamps are epoch milliseconds (`ℤ`). -/
structure ResearchTask where
  id : String
  query : String
  context : Option String := none
  depth : ResearchDepth
  status : ResearchStatus
  trigger : TriggerSource
  sessionId : Option String := none
  priority : ℤ
  createdAt : ℤ
  startedAt : Option ℤ := none
  completedAt : Option ℤ := none
  result : Option ResearchResult := none
  error : Option String := none
deriving DecidableEq, Repr

/-- `Session`. -/
structure Session where
  id : String
  startedAt : ℤ
  lastActivityAt : ℤ
  projectPath : Option String := none
  injectionsCount : ℤ
  injectionsTokens : ℤ
deriving DecidableEq, Repr

/-- `InjectionRecord` (the unified path attaches an `injectionType`). -/
structure InjectionRecord where
  id : String
  taskId : String
  sessionId : String
  injectedAt : ℤ
  content : String
  tokensUsed : ℤ
  accepted : Bool
  injectionType : Option InjectionType := none
deriving DecidableEq, Repr

/-- `InjectionBudget`. -/
structure InjectionBudget where
  maxPerSession : ℤ
  maxTokensPerInjection : ℤ
  maxTotalTokensPerSession : ℤ
  cooldownMs : ℤ
  showInConversation : Bool := false
deriving DecidableEq, Repr

/-! ## Database layer (src/database/index.ts)

The SQLite tables become lists; the SQL `ORDER BY` clauses become
stable sorts by the corresponding key. -/

/-- The table state of `ResearchDatabase`. -/
structure DbState where
  tasks : List ResearchTask
  sessions : List Session
  injectionRecords : List InjectionRecord
deriving DecidableEq, Repr

/-- The `ORDER BY priority DESC, created_at ASC` ordering of
`getQueuedTasks`. -/
def taskOrder (a b : ResearchTask) : Prop :=
  b.priority < a.priority ∨ (a.priority = b.priority ∧ a.createdAt ≤ b.createdAt)

instance : DecidableRel taskOrder := fun a b => by unfold taskOrder; infer_instance

instance : IsTotal ResearchTask taskOrder := by
  constructor
  intro a b
  unfold taskOrder
  rcases lt_trichotomy a.priority b.priority with h | h | h
  · exact .inr (.inl h)
  · rcases le_total a.createdAt b.createdAt with hc | hc
    · exact .inl (.inr ⟨h, hc⟩)
    · exact .inr (.inr ⟨h.symm, hc⟩)
  · exact .inl (.inl h)

instance : IsTrans ResearchTask taskOrder := by
  constructor
  intro a b c hab hbc
  unfold taskOrder at *
  rcases hab with h | ⟨h1, h2⟩ <;> rcases hbc with h' | ⟨h1', h2'⟩
  · exact .inl (by omega)
  · exact .inl (by omega)
  · exact .inl (by omega)
  · exact .inr ⟨by omega, by omega⟩

/-- `getQueuedTasks`: the queued tasks, priority descending then
creation time ascending, truncated to `limit`. -/
def getQueuedTasks (db : DbState) (limit : ℕ) : List ResearchTask :=
  ((db.tasks.filter (fun t => decide (t.status = .queued))).insertionSort taskOrder).take limit

/-- `getRecentTasks`: all tasks ordered by creation time descending,
truncated to `limit`. -/
def getRecentTasks (db : DbState) (limit : ℕ) : List ResearchTask :=
  (db.tasks.insertionSort (fun a b => b.createdAt ≤ a.createdAt)).take limit

/-- `getSession`: keyed lookup. -/
def getSession (db : DbState) (id : String) : Option Session :=
  db.sessions.find? (fun s => decide (s.id = id))

/-- `getSessionInjections`: the session's records, most recent first. -/
def getSessionInjections (db : DbState) (sessionId : String) : List InjectionRecord :=
  (db.injectionRecords.filter (fun r => decide (r.sessionId = sessionId))).insertionSort
    (fun a b => b.injectedAt ≤ a.injectedAt)

/-- `ResearchDatabase.recordInjection`: insert the record and bump the
session's counters and activity timestamp in the same call. -/
def dbRecordInjection (db : DbState) (record : InjectionRecord) (now : ℤ) : DbState :=
  { db with
    injectionRecords := db.injectionRecords ++ [record]
    sessions := db.sessions.map fun s =>
      if s.id = record.sessionId then
        { s with
          injectionsCount := s.injectionsCount + 1
          injectionsTokens := s.injectionsTokens + record.tokensUsed
          lastActivityAt := now }
      else s }

/-- `updateTaskStatus` restricted to how the injection manager calls it
(no timestamp or error updates). -/
def updateTaskStatus (db : DbState) (id : String) (status : ResearchStatus) : DbState :=
  { db with tasks := db.tasks.map fun t => if t.id = id then { t with status := status } else t }

/-! ## Trigger detector (src/triggers/detector.ts)

Each detector regex becomes a positional matcher.  Notes on regex
semantics that the matchers reproduce:

* the question patterns are unanchored (`String.match`), so a scan
  over start positions finds the leftmost match;
* `.` without the `s` flag excludes line terminators;
* `(.+?)(?:\?|$)` is lazy: the capture stops at the first `?` (or the
  end), and greedy `\s+` before a capture backtracks by at most one
  character (only when nothing follows the whitespace run);
* alternations try branches left to right with full backtracking
  (`have|having`, `docs?|documentation`, …);
* a fully optional leading group such as `(?:what(?:'s| is) the )?`
  cannot change whether a match exists or what the later group
  captures, so it is dropped (its consumption only shifts the match
  start). -/

/-- JS line terminators (`.` never matches these). -/
def isNL (c : Char) : Bool := (c = '\n' ∨ c = '\r' : Prop)

/-- An apostrophe, built by code point to keep source tooling happy. -/
def apostrophe : Char := Char.ofNat 39

/-- Lazy `(.+?)(?:\?|$)` at a position: at least one non-terminator
character, stopping at the earliest following `?` or at the end. -/
def capToQM : List Char → Option (List Char)
  | [] => none
  | c :: t =>
    if isNL c then none
    else match t with
      | [] => some [c]
      | '?' :: _ => some [c]
      | _ => (capToQM t).map (c :: ·)

/-- Greedy `(.+)` at a position: the maximal non-empty run of
non-terminator characters. -/
def greedyCapNonNL : List Char → Option (List Char)
  | [] => none
  | c :: t => if isNL c then none else some (c :: t.takeWhile (fun x => !isNL x))

/-- `\s+(.+?)(?:\?|$)`: greedy whitespace then the lazy capture; when
nothing follows the whitespace run, backtracking lets the capture take
the run's final character. -/
def wsCapToQM (l : List Char) : Option (List Char) :=
  let k := (l.takeWhile isSpaceCh).length
  if k = 0 then none
  else
    match capToQM (l.drop k) with
    | some cap => some cap
    | none =>
      if (l.drop k).isEmpty ∧ 2 ≤ k then
        match l.drop (k - 1) with
        | [c] => if isNL c then none else some [c]
        | _ => none
      else none

/-- `\s+(.+)`: greedy whitespace then the greedy capture, with the same
one-character backtrack when nothing follows the run. -/
def wsCapGreedy (l : List Char) : Option (List Char) :=
  let k := (l.takeWhile isSpaceCh).length
  if k = 0 then none
  else
    match greedyCapNonNL (l.drop k) with
    | some cap => some cap
    | none =>
      if (l.drop k).isEmpty ∧ 2 ≤ k then
        match l.drop (k - 1) with
        | [c] => if isNL c then none else some [c]
        | _ => none
      else none

/-- An alternation `(?:a|b|…)` followed by a continuation, with
backtracking: branches tried left to right, the first whose
continuation also succeeds wins. -/
def tryAlt {α : Type} (alts : List String) (k : List Char → Option α) (l : List Char) :
    Option α :=
  alts.firstM fun a => (consumeLit true a.data l).bind k

/-- `\s+` (at least one) then a continuation; the continuations used
here all start with a non-whitespace literal, so the greedy run never
needs to backtrack. -/
def wsThen {α : Type} (k : List Char → Option α) (l : List Char) : Option α :=
  let w := l.takeWhile isSpaceCh
  if w.isEmpty then none else k (l.drop w.length)

/-- Question rule 1: `what\s+(?:is|are)\s+(.+?)(?:\?|$)`. -/
def matchWhatIsAt (l : List Char) : Option (List Char) :=
  (consumeLit true "what".data l).bind (wsThen (tryAlt ["is", "are"] wsCapToQM))

/-- Question rule 2:
`how\s+(?:do|does|can|should)\s+(?:i|we|you)\s+(.+?)(?:\?|$)`. -/
def matchHowDoAt (l : List Char) : Option (List Char) :=
  (consumeLit true "how".data l).bind
    (wsThen (tryAlt ["do", "does", "can", "should"]
      (wsThen (tryAlt ["i", "we", "you"] wsCapToQM))))

/-- Question rule 3 (optional `what's/what is the` prefix dropped):
`best\s+(?:way|approach|practice|method)\s+(?:to|for)\s+(.+?)(?:\?|$)`. -/
def matchBestWayAt (l : List Char) : Option (List Char) :=
  (consumeLit true "best".data l).bind
    (wsThen (tryAlt ["way", "approach", "practice", "method"]
      (wsThen (tryAlt ["to", "for"] wsCapToQM))))

/-- After the first capture of rule 4: `\s+(?:vs|versus|or|compared
to)\s+(.+?)(?:\?|$)`. -/
def vsTail (l : List Char) : Option (List Char) :=
  wsThen (tryAlt ["vs", "versus", "or", "compared to"] wsCapToQM) l

/-- The leading lazy capture of rule 4
`(.+?)\s+(?:vs|versus|or|compared to)\s+(.+?)(?:\?|$)`: grow the first
capture one non-terminator character at a time until the tail
matches. -/
def matchVsAux (acc : List Char) : List Char → Option (List Char × List Char)
  | [] => none
  | c :: t =>
    if isNL c then none
    else match vsTail t with
      | some cap2 => some (acc ++ [c], cap2)
      | none => matchVsAux (acc ++ [c]) t

/-- Question rule 4 at a position. -/
def matchVsAt (l : List Char) : Option (List Char × List Char) :=
  matchVsAux [] l

/-- `[:\s]+(.+)` of rule 5: a greedy separator run then a greedy
capture; when nothing follows the run, backtracking captures the last
non-terminator character of the run (which must not be its first). -/
def colonSpaceCap (l : List Char) : Option (List Char) :=
  let run := l.takeWhile (fun c => (c = ':' : Bool) || isSpaceCh c)
  if run.isEmpty then none
  else
    match greedyCapNonNL (l.drop run.length) with
    | some cap => some cap
    | none =>
      match run.reverse.dropWhile isNL with
      | [] => none
      | c :: rem => if rem.isEmpty then none else some [c]

/-- Question rule 5:
`(?:getting|seeing|have|having|got)\s+(?:an?\s+)?error[:\s]+(.+)`. -/
def matchErrorAt (l : List Char) : Option (List Char) :=
  let afterArticle := fun (x : List Char) =>
    (consumeLit true "error".data x).bind colonSpaceCap
  tryAlt ["getting", "seeing", "have", "having", "got"]
    (wsThen fun y =>
      match (consumeLit true "an".data y).bind (wsThen afterArticle) with
      | some cap => some cap
      | none =>
        match (consumeLit true "a".data y).bind (wsThen afterArticle) with
        | some cap => some cap
        | none => afterArticle y) l

/-- Question rule 6: `how\s+(?:to\s+)?implement\s+(.+?)(?:\?|$)`. -/
def matchImplementAt (l : List Char) : Option (List Char) :=
  let afterTo := fun (x : List Char) =>
    (consumeLit true "implement".data x).bind wsCapToQM
  (consumeLit true "how".data l).bind (wsThen fun y =>
    match (consumeLit true "to".data y).bind (wsThen afterTo) with
    | some cap => some cap
    | none => afterTo y)

/-- Question rule 7: `(?:show|find|get)\s+(?:me\s+)?(?:the\s+)?`
`(?:docs?|documentation|tutorial|guide)\s+(?:for|on|about)\s+(.+)`. -/
def matchDocsAt (l : List Char) : Option (List Char) :=
  let afterNoun :=
    tryAlt ["docs", "doc", "documentation", "tutorial", "guide"]
      (wsThen (tryAlt ["for", "on", "about"] wsCapGreedy))
  let afterThe := fun (x : List Char) =>
    match (consumeLit true "the".data x).bind (wsThen afterNoun) with
    | some cap => some cap
    | none => afterNoun x
  let afterMe := fun (x : List Char) =>
    match (consumeLit true "me".data x).bind (wsThen afterThe) with
    | some cap => some cap
    | none => afterThe x
  tryAlt ["show", "find", "get"] (wsThen afterMe) l

/-- Question rule 8: `why\s+(?:is|does|do|should|would)\s+(.+?)(?:\?|$)`. -/
def matchWhyAt (l : List Char) : Option (List Char) :=
  (consumeLit true "why".data l).bind
    (wsThen (tryAlt ["is", "does", "do", "should", "would"] wsCapToQM))

/-- Question rule 9 (optional `what's/what is the` prefix dropped):
`(?:latest|newest|current|recent)\s+(.+)`. -/
def matchLatestAt (l : List Char) : Option (List Char) :=
  tryAlt ["latest", "newest", "current", "recent"] wsCapGreedy l

/-- `DetectedTrigger`. -/
structure DetectedTrigger where
  shouldResearch : Bool
  query : Option String := none
  depth : ResearchDepth
  priority : ℤ
  confidence : ℚ
  reason : String
deriving DecidableEq, Repr

/-- Collapse every whitespace run into one space (`replace(/\s+/g, ' ')`). -/
def collapseWs (l : List Char) : List Char :=
  l.foldr (fun c acc =>
    if isSpaceCh c then
      match acc with
      | ' ' :: _ => acc
      | _ => ' ' :: acc
    else c :: acc) []

/-- `cleanQuery`: trim, strip quote characters, collapse whitespace,
cap at 200 characters. -/
def cleanQuery (query : String) : String :=
  jsSliceTo
    (String.mk (collapseWs
      ((jsTrim query).data.filter (fun c => ¬(c = apostrophe ∨ c = '"'))))) 200

/-- One entry of `questionPatterns`: the query extractor (already
composed with the regex match), the weight, the depth, and the regex
source text (used in the `reason` string). -/
structure PatternRule where
  matchQuery : List Char → Option String
  weight : ℚ
  depth : ResearchDepth
  source : String

/-- The ordered `questionPatterns` list with their `extractQuery`
compositions. -/
def questionPatterns : List PatternRule :=
  [ { matchQuery := fun l => (scanFirst matchWhatIsAt l).map String.mk
      weight := 0.7, depth := .quick
      source := "what\\s+(?:is|are)\\s+(.+?)(?:\\?|$)" }
  , { matchQuery := fun l => (scanFirst matchHowDoAt l).map String.mk
      weight := 0.8, depth := .medium
      source := "how\\s+(?:do|does|can|should)\\s+(?:i|we|you)\\s+(.+?)(?:\\?|$)" }
  , { matchQuery := fun l => (scanFirst matchBestWayAt l).map
        (fun cap => "best practices " ++ String.mk cap)
      weight := 0.9, depth := .medium
      source := "(?:what(?:'s| is) the )?best\\s+(?:way|approach|practice|method)\\s+(?:to|for)\\s+(.+?)(?:\\?|$)" }
  , { matchQuery := fun l => (scanFirst matchVsAt l).map
        (fun caps => String.mk caps.1 ++ " vs " ++ String.mk caps.2)
      weight := 0.85, depth := .deep
      source := "(.+?)\\s+(?:vs|versus|or|compared to)\\s+(.+?)(?:\\?|$)" }
  , { matchQuery := fun l => (scanFirst matchErrorAt l).map
        (fun cap => "fix error " ++ String.mk cap)
      weight := 0.75, depth := .medium
      source := "(?:getting|seeing|have|having|got)\\s+(?:an?\\s+)?error[:\\s]+(.+)" }
  , { matchQuery := fun l => (scanFirst matchImplementAt l).map
        (fun cap => "implement " ++ String.mk cap)
      weight := 0.85, depth := .medium
      source := "how\\s+(?:to\\s+)?implement\\s+(.+?)(?:\\?|$)" }
  , { matchQuery := fun l => (scanFirst matchDocsAt l).map
        (fun cap => String.mk cap ++ " documentation")
      weight := 0.9, depth := .medium
      source := "(?:show|find|get)\\s+(?:me\\s+)?(?:the\\s+)?(?:docs?|documentation|tutorial|guide)\\s+(?:for|on|about)\\s+(.+)" }
  , { matchQuery := fun l => (scanFirst matchWhyAt l).map
        (fun cap => "why " ++ String.mk cap)
      weight := 0.7, depth := .medium
      source := "why\\s+(?:is|does|do|should|would)\\s+(.+?)(?:\\?|$)" }
  , { matchQuery := fun l => (scanFirst matchLatestAt l).map
        (fun cap => "latest " ++ String.mk cap ++ " 2024")
      weight := 0.95, depth := .quick
      source := "(?:what(?:'s| is) the\\s+)?(?:latest|newest|current|recent)\\s+(.+)" }
  ]

/-- Negative pattern 1: acknowledgements
(`^(?:ok|okay|yes|no|thanks|thank you|got it|understood)/i`). -/
def negAcknowledgement (l : List Char) : Bool :=
  ["ok", "okay", "yes", "no", "thanks", "thank you", "got it", "understood"].any
    fun p => (consumeLit true p.data l).isSome

/-- A word from the list followed by one whitespace character. -/
def wordThenSpace (words : List String) (l : List Char) : Bool :=
  words.any fun w =>
    match consumeLit true w.data l with
    | some (c :: _) => isSpaceCh c
    | _ => false

/-- Negative pattern 2: imperative commands
(`^(?:please\s+)?(?:do|make|create|write|build|implement|add|remove|delete|update|fix)\s/i`). -/
def negImperative (l : List Char) : Bool :=
  let verbs := ["do", "make", "create", "write", "build", "implement",
                "add", "remove", "delete", "update", "fix"]
  (match consumeLit true "please".data l with
   | some r =>
     let w := r.takeWhile isSpaceCh
     if w.isEmpty then false else wordThenSpace verbs (r.drop w.length)
   | none => false)
  || wordThenSpace verbs l

/-- Negative pattern 3: "information given" phrasings
(`^(?:here(?:'s| is)|look at|check|see|read)\s/i`). -/
def negHereIs (l : List Char) : Bool :=
  wordThenSpace
    ["here" ++ String.singleton apostrophe ++ "s", "here is",
     "look at", "check", "see", "read"] l

/-- Negative pattern 4: git/deploy verbs
(`^commit|^push|^pull|^merge|^deploy/i`). -/
def negGitVerb (l : List Char) : Bool :=
  ["commit", "push", "pull", "merge", "deploy"].any
    fun p => (consumeLit true p.data l).isSome

/-- Does the trimmed prompt match one of the `negativePatterns` (the
loop returns the same trigger whichever pattern fires)? -/
def matchesNegativePattern (trimmed : String) : Bool :=
  negAcknowledgement trimmed.data || negImperative trimmed.data
    || negHereIs trimmed.data || negGitVerb trimmed.data

/-- The fold over `questionPatterns`: highest weight wins, earlier
declaration wins ties (`trigger.confidence > bestMatch.confidence`). -/
def bestQuestionMatch (trimmed : String) : Option DetectedTrigger :=
  questionPatterns.foldl (fun best rule =>
    match rule.matchQuery trimmed.data with
    | some q =>
      let trigger : DetectedTrigger :=
        { shouldResearch := true
          query := some (cleanQuery q)
          depth := rule.depth
          priority := jsRound (rule.weight * 10)
          confidence := rule.weight
          reason := "Matches pattern: " ++ jsSliceTo rule.source 30 ++ "..." }
      match best with
      | none => some trigger
      | some b => if b.confidence < trigger.confidence then some trigger else some b
    | none => best) none

/-- `analyzePrompt`: negative patterns first, then the length guard,
then the question patterns, then the bare question-mark fallback. -/
def analyzePrompt (prompt : String) : DetectedTrigger :=
  let trimmed := jsTrim prompt
  if matchesNegativePattern trimmed then
    { shouldResearch := false, depth := .quick, priority := 0, confidence := 0,
      reason := "Matches negative pattern (not a question)" }
  else if trimmed.length < 10 then
    { shouldResearch := false, depth := .quick, priority := 0, confidence := 0,
      reason := "Prompt too short" }
  else
    match bestQuestionMatch trimmed with
    | some best => best
    | none =>
      if trimmed.data.contains '?' then
        { shouldResearch := true
          query := some (cleanQuery (String.mk (trimmed.data.filter (fun c => c ≠ '?'))))
          depth := .quick, priority := 5, confidence := 0.5
          reason := "Contains question mark" }
      else
        { shouldResearch := false, depth := .quick, priority := 0, confidence := 0,
          reason := "No research triggers detected" }

/-! ## Injection formatters (src/injection/formatters.ts)

`Date.now()` is an explicit `now`; JS number arithmetic is exact `ℚ`
for scores and `ℚ`/`ℤ` for epoch timestamps; `new Date(ms)` calendar
fields are modelled in UTC (the host's local offset is out of scope of
every claim). -/

/-- A JS template literal of a possibly-undefined string
(`undefined` prints as `"undefined"`). -/
def jsShow (v : Option String) : String :=
  match v with
  | some s => s
  | none => "undefined"

/-- JS `Set` insertion-order dedup (`[...new Set(xs)]`: first
occurrence kept). -/
def jsSetDedup (l : List String) : List String :=
  l.foldl (fun acc x => if x ∈ acc then acc else acc ++ [x]) []

/-- The truncation idiom
`if (s.length > r) s = s.slice(0, r - 3) + '...'`. -/
def truncTo (s : String) (r : ℤ) : String :=
  if (s.length : ℤ) > r then jsSliceTo s (r - 3) ++ "..." else s

/-- `date.getMonth()` (0-based) and `date.getDate()` from days since
the epoch, via the standard civil-from-days algorithm (UTC). -/
def civilMonthDay (days : ℤ) : ℤ × ℤ :=
  let z := days + 719468
  let era := Int.fdiv z 146097
  let doe := z - era * 146097
  let yoe := Int.fdiv (doe - Int.fdiv doe 1460 + Int.fdiv doe 36524 - Int.fdiv doe 146096) 365
  let doy := doe - (365 * yoe + Int.fdiv yoe 4 - Int.fdiv yoe 100)
  let mp := Int.fdiv (5 * doy + 2) 153
  let d := doy - Int.fdiv (153 * mp + 2) 5 + 1
  let m := mp + (if mp < 10 then 3 else -9)
  (m - 1, d)

/-- The month names of `formatRelativeDate`. -/
def monthNames : List String :=
  ["Jan", "Feb", "Mar", "Apr", "May", "Jun",
   "Jul", "Aug", "Sep", "Oct", "Nov", "Dec"]

/-- `formatRelativeDate`: `today` / `yesterday` / `n days ago` /
`Mon DD`. -/
def formatRelativeDate (timestamp now : ℚ) : String :=
  let daysDiff : ℤ := ⌊(now - timestamp) / (1000 * 60 * 60 * 24)⌋
  if daysDiff = 0 then "today"
  else if daysDiff = 1 then "yesterday"
  else if daysDiff < 7 then toString daysDiff ++ " days ago"
  else
    let md := civilMonthDay ⌊timestamp / (1000 * 60 * 60 * 24)⌋
    (monthNames.getD md.1.toNat "") ++ " " ++ toString md.2

/-- `FormattedInjection.sources`. -/
structure FormattedSources where
  memory : Option (ℤ × String) := none
  research : Option (String × String) := none
deriving DecidableEq, Repr

/-- `FormattedInjection`. -/
structure FormattedInjection where
  itype : InjectionType
  content : String
  tokensEstimate : ℕ
  sources : FormattedSources
deriving DecidableEq, Repr

/-- `FormatOptions`. -/
structure FormatOptions where
  maxTokens : Option ℤ := none
  includeFiles : Option Bool := none
  includeFollowup : Option Bool := none
deriving DecidableEq, Repr

/-- The shape of `DEFAULT_BUDGETS`. -/
structure DefaultBudgets where
  memoryOnly : ℤ
  researchOnly : ℤ
  combined : ℤ
  warning : ℤ
deriving DecidableEq, Repr

/-- Modelled from the spec: `DEFAULT_CONFIG.claudeMem` token budgets
(`types.ts`, whose claude-mem section is not under `src/`); the values
are the ones documented beside `DEFAULT_BUDGETS` in
`formatters.ts` (80/100/150/120). -/
def DEFAULT_BUDGETS : DefaultBudgets :=
  { memoryOnly := 80, researchOnly := 100, combined := 150, warning := 120 }

/-- `candidate.project.split('/').pop() || candidate.project`. -/
def projectTail (project : String) : String :=
  jsOrStr (jsSplitChar (Char.ofNat 47) project).getLast? project

/-- The first three joined parts of the memory template (fixed line,
blank line, attribution header). -/
def memoryInjectionHead (candidate : KnowledgeCandidate ℚ) (now : ℚ) : String :=
  "Continue your work. Relevant context:" ++ "\n" ++ "\n"
    ++ "[Memory] You handled similar " ++ jsShow candidate.content.ctype
    ++ " in " ++ projectTail candidate.project
    ++ " (" ++ formatRelativeDate candidate.createdAt now ++ "):"

/-- The `Files: …` line of the memory template, when present. -/
def memoryFilesLine (candidate : KnowledgeCandidate ℚ) (options : FormatOptions) :
    Option String :=
  let filesPresent : Bool :=
    0 < (candidate.filesModified.getD []).length
      ∨ 0 < (candidate.filesRead.getD []).length
  if options.includeFiles ≠ some false ∧ filesPresent then
    let files := candidate.filesModified.getD [] ++ candidate.filesRead.getD []
    let uniqueFiles := (jsSetDedup files).take 3
    if uniqueFiles.length > 0 then
      some ("Files: " ++ String.intercalate ", " uniqueFiles)
    else none
  else none

/-- `formatMemoryInjection`. -/
def formatMemoryInjection (candidate : KnowledgeCandidate ℚ) (now : ℚ)
    (options : FormatOptions) : FormattedInjection :=
  let maxTokens := options.maxTokens.getD DEFAULT_BUDGETS.memoryOnly
  let maxChars := maxTokens * 4
  let head := memoryInjectionHead candidate now
  let remainingChars : ℤ := maxChars - (head.length : ℤ) - 50
  let summary := truncTo candidate.content.summary remainingChars
  let base := head ++ "\n" ++ summary
  let content := match memoryFilesLine candidate options with
    | some filesLine => base ++ "\n" ++ filesLine
    | none => base
  { itype := .memoryOnly
    content := content
    tokensEstimate := (content.length + 3) / 4
    sources := { memory := some (candidate.content.id, candidate.content.title) } }

/-- The first three joined parts of the research template. -/
def researchInjectionHead (candidate : KnowledgeCandidate ℚ) : String :=
  "Continue your work. Research gathered:" ++ "\n" ++ "\n"
    ++ "**" ++ truncTo candidate.content.title 50 ++ "**:"

/-- The confidence/followup footer of the research template. -/
def researchInjectionFooter (candidate : KnowledgeCandidate ℚ)
    (options : FormatOptions) : String :=
  let confidencePercent := jsRound (candidate.relevance.confidence * 100)
  if options.includeFollowup ≠ some false then
    "(confidence: " ++ toString confidencePercent ++ "%) [/research-detail "
      ++ toString candidate.content.id ++ " for sources]"
  else
    "(confidence: " ++ toString confidencePercent ++ "%)"

/-- `formatResearchInjection`. -/
def formatResearchInjection (candidate : KnowledgeCandidate ℚ)
    (options : FormatOptions) : FormattedInjection :=
  let maxTokens := options.maxTokens.getD DEFAULT_BUDGETS.researchOnly
  let maxChars := maxTokens * 4
  let head := researchInjectionHead candidate
  let remainingChars : ℤ := maxChars - (head.length : ℤ) - 60
  let summary := truncTo candidate.content.summary remainingChars
  let content := head ++ "\n" ++ summary ++ "\n" ++ researchInjectionFooter candidate options
  { itype := .researchOnly
    content := content
    tokensEstimate := (content.length + 3) / 4
    sources := { research := some (toString candidate.content.id, candidate.content.title) } }

/-- The first three joined parts of the combined template (fixed line,
blank line, memory attribution header). -/
def combinedInjectionHead (memory : KnowledgeCandidate ℚ) (now : ℚ) : String :=
  "Continue your work. Context gathered:" ++ "\n" ++ "\n"
    ++ "[Memory] You "
    ++ (if memory.content.ctype = some "bugfix" then "fixed" else "implemented")
    ++ " " ++ jsSliceTo memory.content.title 30
    ++ " in " ++ projectTail memory.project
    ++ " (" ++ formatRelativeDate memory.createdAt now ++ "):"

/-- The research header line of the combined template. -/
def combinedResearchHeader (research : KnowledgeCandidate ℚ) : String :=
  "[Research] Current best practice for " ++ truncTo research.content.title 40 ++ ":"

/-- The confidence/followup footer of the combined template. -/
def combinedInjectionFooter (research : KnowledgeCandidate ℚ)
    (options : FormatOptions) : String :=
  let confidencePercent := jsRound (research.relevance.confidence * 100)
  if options.includeFollowup ≠ some false then
    "(confidence: " ++ toString confidencePercent ++ "%) [/research-detail "
      ++ toString research.content.id ++ "]"
  else
    "(confidence: " ++ toString confidencePercent ++ "%)"

/-- `formatCombinedInjection` (budget split 40% memory / 60%
research). -/
def formatCombinedInjection (memory research : KnowledgeCandidate ℚ) (now : ℚ)
    (options : FormatOptions) : FormattedInjection :=
  let maxTokens := options.maxTokens.getD DEFAULT_BUDGETS.combined
  let maxChars := maxTokens * 4
  let memoryChars : ℤ := ⌊(maxChars : ℚ) * 0.4⌋
  let researchChars : ℤ := ⌊(maxChars : ℚ) * 0.6⌋
  let head := combinedInjectionHead memory now
  let memSummary := truncTo memory.content.summary (memoryChars - 80)
  let resHeader := combinedResearchHeader research
  let resSummary := truncTo research.content.summary (researchChars - 100)
  let content := head ++ "\n" ++ memSummary ++ "\n" ++ "\n"
    ++ resHeader ++ "\n" ++ resSummary ++ "\n" ++ combinedInjectionFooter research options
  { itype := .combined
    content := content
    tokensEstimate := (content.length + 3) / 4
    sources := { memory := some (memory.content.id, memory.content.title)
                 research := some (toString research.content.id, research.content.title) } }

/-- The joined parts of the warning template before the `**Why**`
line: urgency line, blank line, optional current approach, alternative
line. -/
def warningInjectionHead (pivot : PivotSuggestion) (currentApproach : Option String) :
    String :=
  let urgencyEmoji := if pivot.urgency = "high" then "[!] "
    else if pivot.urgency = "medium" then "[*] " else "[i] "
  let start := urgencyEmoji ++ "Research suggests reconsidering approach:" ++ "\n" ++ "\n"
  let withCurrent := match currentApproach with
    | some ca => if ca = "" then start else start ++ "**Current**: " ++ truncTo ca 50 ++ "\n"
    | none => start
  withCurrent ++ "**Alternative**: " ++ truncTo pivot.alternative 100

/-- The confidence/followup footer of the warning template. -/
def warningInjectionFooter (research : KnowledgeCandidate ℚ)
    (options : FormatOptions) : String :=
  let confidenceLabel := if research.relevance.confidence ≥ 0.8 then "high"
    else if research.relevance.confidence ≥ 0.6 then "good" else "moderate"
  if options.includeFollowup ≠ some false then
    "(" ++ confidenceLabel ++ " confidence) [/research-detail "
      ++ toString research.content.id ++ "]"
  else
    "(" ++ confidenceLabel ++ " confidence)"

/-- `formatWarningInjection`. -/
def formatWarningInjection (research : KnowledgeCandidate ℚ) (pivot : PivotSuggestion)
    (currentApproach : Option String) (options : FormatOptions) : FormattedInjection :=
  let maxTokens := options.maxTokens.getD DEFAULT_BUDGETS.warning
  let maxChars := maxTokens * 4
  let head := warningInjectionHead pivot currentApproach
  let remainingChars : ℤ := maxChars - (head.length : ℤ) - 60
  let reason := truncTo pivot.reason remainingChars
  let content := head ++ "\n" ++ "**Why**: " ++ reason ++ "\n" ++ "\n"
    ++ warningInjectionFooter research options
  { itype := .warning
    content := content
    tokensEstimate := (content.length + 3) / 4
    sources := { research := some (toString research.content.id, research.content.title) } }

/-- `formatTaskInjection` (the legacy task formatter used by
`getInjection`). -/
def formatTaskInjection (task : ResearchTask) (maxTokensOpt : Option ℤ) : String :=
  match task.result with
  | none => ""
  | some result =>
    let maxTokens := maxTokensOpt.getD 150
    let maxChars := maxTokens * 4
    let p1 := "<research-context query=" ++ "\"" ++ task.query ++ "\"" ++ ">"
    let summary := truncTo result.summary (maxChars - 100)
    let withSource := match result.sources with
      | [] => p1 ++ "\n" ++ summary
      | topSource :: _ =>
        p1 ++ "\n" ++ summary ++ "\n"
          ++ "Source: " ++ topSource.title ++ " (" ++ topSource.url ++ ")"
    let withPivot := match result.pivot with
      | none => withSource
      | some pivot =>
        let urgencyEmoji := if pivot.urgency = "high" then "[!]"
          else if pivot.urgency = "medium" then "[*]" else "[i]"
        withSource ++ "\n" ++ "\n" ++ urgencyEmoji ++ " **Alternative Approach Detected:**"
          ++ "\n" ++ pivot.alternative ++ "\n" ++ "_Reason: " ++ pivot.reason ++ "_"
    let sourceCount := result.sources.length
    let withFollowup :=
      if 1 < sourceCount
          ∨ (result.fullContent ≠ "" ∧ 2 * summary.length < result.fullContent.length) then
        withPivot ++ "\n" ++ "\n" ++ toString sourceCount
          ++ " sources available. Use /research-status for details."
      else withPivot
    withFollowup ++ "\n" ++ "</research-context>"

/-! ## Injection manager (src/injection/manager.ts)

The manager's mutable collaborators (the database and the in-memory
`lastInjectionTime` map) become an explicit `ManagerState`;
`Date.now()` and `randomUUID()` become the `now` and `freshId`
arguments. -/

/-- The manager's state: the database plus the per-session cooldown
map (`Map.set` = shadowing cons, `Map.get` = first match). -/
structure ManagerState where
  db : DbState
  lastInjectionTime : List (String × ℤ)
deriving DecidableEq, Repr

/-- `lastInjectionTime.get(sessionId)`. -/
def lookupLastInjection (st : ManagerState) (sessionId : String) : Option ℤ :=
  (st.lastInjectionTime.find? (fun e => decide (e.1 = sessionId))).map (fun e => e.2)

/-- `canInject`: both session budgets still open. -/
def canInject (budget : InjectionBudget) (session : Session) : Bool :=
  ¬(session.injectionsCount ≥ budget.maxPerSession)
    ∧ ¬(session.injectionsTokens ≥ budget.maxTotalTokensPerSession)

/-- `isInCooldown`. -/
def isInCooldown (budget : InjectionBudget) (st : ManagerState) (sessionId : String)
    (now : ℤ) : Bool :=
  match lookupLastInjection st sessionId with
  | none => false
  | some lastTime => now - lastTime < budget.cooldownMs

/-- A scored injection candidate. -/
structure InjectionCandidate where
  task : ResearchTask
  score : ℚ
  reason : String
deriving DecidableEq, Repr

/-- The word set of `calculateTextRelevance`: lower-cased, punctuation
stripped, split on whitespace, words longer than three characters,
deduplicated. -/
def relevanceWords (s : String) : List String :=
  jsSetDedup
    (((splitSpaceAux [] ((jsToLower s).data.filter (fun c => isWordCh c || isSpaceCh c))).map
        String.mk).filter
      (fun w => 3 < w.length))

/-- `calculateTextRelevance`: word-set overlap over the smaller set. -/
def calculateTextRelevance (text1 text2 : String) : ℚ :=
  let words1 := relevanceWords text1
  let words2 := relevanceWords text2
  if words1.length = 0 ∨ words2.length = 0 then 0
  else ((words1.filter (fun w => w ∈ words2)).length : ℚ)
    / (min words1.length words2.length : ℚ)

/-- JS `x || d` on an optional integer (`undefined` and `0` falsy). -/
def jsOrInt (v : Option ℤ) (d : ℤ) : ℤ :=
  match v with
  | none => d
  | some x => if x = 0 then d else x

/-- `confidence.toFixed(2)` idealised over `ℚ` (round half up to two
decimals; only ever interpolated into a log/reason string). -/
def qToFixed2 (q : ℚ) : String :=
  let n := jsRound (q * 100)
  toString (Int.ediv n 100) ++ "." ++
    (let f := Int.emod n 100
     if f < 10 then "0" ++ toString f else toString f)

/-- `scoreCandidate`: confidence, recency, priority, source-count and
context-relevance bonuses, capped at `1`. -/
def scoreCandidate (now : ℤ) (currentContext : Option String)
    (task : ResearchTask) : InjectionCandidate :=
  match task.result with
  | none => { task := task, score := 0, reason := "No result" }
  | some result =>
    let score0 : ℚ := result.confidence * 0.3
    let reasons0 : List String := ["confidence: " ++ qToFixed2 result.confidence]
    let ageMs := now - jsOrInt task.completedAt task.createdAt
    let ageMinutes : ℚ := (ageMs : ℚ) / 60000
    let (score1, reasons1) :=
      if ageMinutes < 5 then (score0 + 0.3, reasons0 ++ ["very recent"])
      else if ageMinutes < 15 then (score0 + 0.2, reasons0 ++ ["recent"])
      else if ageMinutes < 30 then (score0 + 0.1, reasons0 ++ ["somewhat recent"])
      else (score0, reasons0)
    let (score2, reasons2) :=
      if task.priority ≥ 8 then (score1 + 0.2, reasons1 ++ ["high priority"])
      else if task.priority ≥ 6 then (score1 + 0.1, reasons1 ++ ["medium priority"])
      else (score1, reasons1)
    let sourceCount := result.sources.length
    let (score3, reasons3) :=
      if sourceCount ≥ 5 then
        (score2 + 0.15, reasons2 ++ [toString sourceCount ++ " sources"])
      else if sourceCount ≥ 3 then (score2 + 0.1, reasons2)
      else (score2, reasons2)
    let (score4, reasons4) :=
      if (currentContext.getD "") ≠ "" ∧ result.summary ≠ "" then
        let contextRelevance := calculateTextRelevance result.summary (currentContext.getD "")
        (score3 + contextRelevance * 0.25,
         if contextRelevance > 0.5 then reasons3 ++ ["context relevant"] else reasons3)
      else (score3, reasons3)
    { task := task, score := min score4 1, reason := String.intercalate ", " reasons4 }

/-- The injection candidates of a session: recent completed tasks of
this session, with a result, not previously injected. -/
def injectionCandidates (st : ManagerState) (sessionId : String) : List ResearchTask :=
  let injectedTaskIds := (getSessionInjections st.db sessionId).map (fun i => i.taskId)
  (getRecentTasks st.db 20).filter fun t =>
    decide (t.status = .completed) && decide (t.sessionId = some sessionId)
      && t.result.isSome && decide (t.id ∉ injectedTaskIds)

/-- The scored candidates above the minimum relevance threshold,
highest score first. -/
def scoredCandidates (st : ManagerState) (now : ℤ) (currentContext : Option String)
    (sessionId : String) : List InjectionCandidate :=
  (((injectionCandidates st sessionId).map (scoreCandidate now currentContext)).filter
      (fun c => decide (c.score > 0.5))).insertionSort
    (fun a b => b.score ≤ a.score)

/-- `InjectionManager.recordInjection`: build the `InjectionRecord`
(estimating tokens as `ceil(length / 4)`), write it through the
database (which also bumps the session counters), flag the task
`injected`, and reset the cooldown clock. -/
def recordInjectionM (st : ManagerState) (now : ℤ) (freshId : String)
    (sessionId : String) (task : ResearchTask) (content : String) : ManagerState :=
  let tokensUsed : ℤ := ((content.length + 3) / 4 : ℕ)
  let record : InjectionRecord :=
    { id := freshId, taskId := task.id, sessionId := sessionId, injectedAt := now,
      content := content, tokensUsed := tokensUsed, accepted := true }
  let db1 := dbRecordInjection st.db record now
  let db2 := updateTaskStatus db1 task.id .injected
  { db := db2, lastInjectionTime := (sessionId, now) :: st.lastInjectionTime }

/-- `getInjection`: the gate chain (session, budget, cooldown,
candidates, threshold) with a `null` short-circuit, then formatting and
the single `recordInjection` on success. -/
def getInjection (budget : InjectionBudget) (st : ManagerState) (now : ℤ)
    (freshId : String) (sessionId : String) (currentContext : Option String) :
    Option String × ManagerState :=
  match getSession st.db sessionId with
  | none => (none, st)
  | some session =>
    if canInject budget session = false then (none, st)
    else if isInCooldown budget st sessionId now then (none, st)
    else if (injectionCandidates st sessionId).isEmpty then (none, st)
    else
      match scoredCandidates st now currentContext sessionId with
      | [] => (none, st)
      | best :: _ =>
        let formatted := formatTaskInjection best.task (some budget.maxTokensPerInjection)
        (some formatted, recordInjectionM st now freshId sessionId best.task formatted)

/-! ## Example inputs used by witnesses -/

/-- A queued task; `mkQueuedTask i p c` has id `i`, priority `p`,
creation time `c`. -/
def mkQueuedTask (i : String) (p c : ℤ) : ResearchTask :=
  { id := i, query := "q", depth := .quick, status := .queued,
    trigger := .user_prompt, priority := p, createdAt := c }

/-- Tasks with priorities `[3,7,7,1]` enqueued in that order. -/
def exQueueTasks : List ResearchTask :=
  [ mkQueuedTask "tA" 3 0, mkQueuedTask "tB" 7 1,
    mkQueuedTask "tC" 7 2, mkQueuedTask "tD" 1 3 ]

/-- A database holding exactly `exQueueTasks`. -/
def exQueueDb : DbState :=
  { tasks := exQueueTasks, sessions := [], injectionRecords := [] }

/-- A concrete observation row. -/
def exRow : ObservationRow :=
  { id := 7
    rtype := "bugfix"
    title := some "race in watcher"
    subtitle := some "fixed with mutex"
    narrative := none
    facts := none
    project := "proj-x"
    files_read := none
    files_modified := none
    created_at_epoch := 0
    confidence := none
    depth := none
    source := .observation }

/-- `exRow` with different text content but identical scoring inputs. -/
def exRowOtherText : ObservationRow :=
  { exRow with
    id := 8
    title := some "another title entirely"
    subtitle := some "a very different summary"
    narrative := some "long narrative"
    facts := some ["fact a", "fact b"] }

/-- A concrete research directive. -/
def exDirective : ResearchDirective := { query := "what is rate limiting" }

/-- A fresh session with open budgets. -/
def exSession : Session :=
  { id := "s1", startedAt := 0, lastActivityAt := 0,
    injectionsCount := 0, injectionsTokens := 0 }

/-- A concrete full-confidence research result. -/
def exResult : ResearchResult :=
  { summary := "use middleware", fullContent := "", sources := [],
    tokensUsed := 0, confidence := 1 }

/-- A completed high-priority task of session `s1`, finished at
`t = 1000`. -/
def exCompletedTask : ResearchTask :=
  { id := "task-1", query := "rate limiting", depth := .quick,
    status := .completed, trigger := .user_prompt, sessionId := some "s1",
    priority := 9, createdAt := 0, completedAt := some 1000,
    result := some exResult }

/-- A manager state holding `exSession` and `exCompletedTask`. -/
def exManagerState : ManagerState :=
  { db := { tasks := [exCompletedTask], sessions := [exSession], injectionRecords := [] }
    lastInjectionTime := [] }

/-- A manager state with no sessions at all. -/
def exEmptyState : ManagerState :=
  { db := { tasks := [], sessions := [], injectionRecords := [] }
    lastInjectionTime := [] }

/-- The default injection budget of the manager constructor. -/
def exBudget : InjectionBudget :=
  { maxPerSession := 5, maxTokensPerInjection := 150,
    maxTotalTokensPerSession := 500, cooldownMs := 30000 }

/-- A first concrete finding with one highly relevant result. -/
def exFinding1 : Finding :=
  { specialist := "web", results := [{ title := "rl", relevance := some 0.9 }] }

/-- A second concrete finding with one highly relevant result. -/
def exFinding2 : Finding :=
  { specialist := "docs", results := [{ title := "rl2", relevance := some 0.9 }] }

/-- A candidate whose project string is 300 characters long — the
memory template never truncates the project name. -/
def exOversizeCandidate : KnowledgeCandidate ℚ :=
  { source := .observation
    content := { id := 1, title := "t", summary := "", ctype := some "bugfix" }
    relevance := { textSimilarity := 0.7, recency := 1, projectMatch := true,
                   typeMatch := 0.8, confidence := 0.9 }
    finalScore := 0.9
    project := String.mk (List.replicate 300 'x')
    createdAt := 0 }

/-- A candidate with modest metadata, well inside every reserve. -/
def exSmallCandidate : KnowledgeCandidate ℚ :=
  { source := .observation
    content := { id := 2, title := "jwt auth", summary := "cookie rotation",
                 ctype := some "bugfix" }
    relevance := { textSimilarity := 0.7, recency := 1, projectMatch := true,
                   typeMatch := 0.8, confidence := 0.9 }
    finalScore := 0.9
    project := "proj"
    createdAt := 0 }

/-- A concrete real-valued candidate (for recency monotonicity). -/
noncomputable def exCandidateR : KnowledgeCandidate ℝ :=
  { source := .observation
    content := { id := 3, title := "t", summary := "s" }
    relevance := { textSimilarity := 0.7, recency := 1, projectMatch := true,
                   typeMatch := 0.8, confidence := 0.6 }
    finalScore := 0
    project := "proj-x"
    createdAt := 0 }

/-- A concrete memory candidate with final score `0.9`. -/
def exMemoryCandidate : KnowledgeCandidate ℚ :=
  { source := .observation
    content := { id := 1, title := "jwt auth", summary := "used httpOnly cookies" }
    relevance := { textSimilarity := 0.7, recency := 1, projectMatch := true,
                   typeMatch := 0.8, confidence := 0.9 }
    finalScore := 0.9
    project := "proj-x"
    createdAt := 0 }

/-- A concrete research candidate with final score `0.5`. -/
def exResearchCandidate : KnowledgeCandidate ℚ :=
  { source := .research
    content := { id := 2, title := "rate limiting", summary := "hono middleware" }
    relevance := { textSimilarity := 0.7, recency := 0.5, projectMatch := false,
                   typeMatch := 0.9, confidence := 0.5 }
    finalScore := 0.5
    project := "proj-y"
    createdAt := 0 }

/-- A concrete claude-mem configuration with `memoryOnlyThreshold = 0.8`. -/
def exClaudeMemConfig : ClaudeMemConfig ℚ :=
  { memoryOnlyThreshold := 0.8
    combinedThreshold := 0.65
    researchOnlyThreshold := 0.7
    minRelevanceScore := 0.5 }

end ResearchTeam

namespace ResearchTeam

/-! ## Claim theorems -/

/-- C1: `determineInjectionType` applies the fixed precedence over the
two optional candidates' final scores (a missing candidate counting as
score 0): `memory-only` when the memory score reaches the memory-only
threshold and strictly beats the research score; otherwise `combined`
when both reach the combined threshold; otherwise `research-only` when
the research score reaches its threshold; otherwise the lenient
`memory-only` when the memory score reaches the global minimum; else
`none`.  In particular a memory candidate at 0.9 against a research
candidate at 0.5 with `memoryOnlyThreshold = 0.8` yields `memory-only`. -/
theorem c1_determineInjectionType_precedence
    (config : ClaudeMemConfig ℚ) (memory research : Option (KnowledgeCandidate ℚ))
    (ms rs : ℚ)
    (hms : ms = (memory.map (fun c => c.finalScore)).getD 0)
    (hrs : rs = (research.map (fun c => c.finalScore)).getD 0) :
    (ms ≥ config.memoryOnlyThreshold ∧ ms > rs →
      determineInjectionType config memory research = .memoryOnly)
    ∧ (¬(ms ≥ config.memoryOnlyThreshold ∧ ms > rs) →
        ms ≥ config.combinedThreshold ∧ rs ≥ config.combinedThreshold →
        determineInjectionType config memory research = .combined)
    ∧ (¬(ms ≥ config.memoryOnlyThreshold ∧ ms > rs) →
        ¬(ms ≥ config.combinedThreshold ∧ rs ≥ config.combinedThreshold) →
        rs ≥ config.researchOnlyThreshold →
        determineInjectionType config memory research = .researchOnly)
    ∧ (¬(ms ≥ config.memoryOnlyThreshold ∧ ms > rs) →
        ¬(ms ≥ config.combinedThreshold ∧ rs ≥ config.combinedThreshold) →
        ¬(rs ≥ config.researchOnlyThreshold) →
        ms ≥ config.minRelevanceScore →
        determineInjectionType config memory research = .memoryOnly)
    ∧ (¬(ms ≥ config.memoryOnlyThreshold ∧ ms > rs) →
        ¬(ms ≥ config.combinedThreshold ∧ rs ≥ config.combinedThreshold) →
        ¬(rs ≥ config.researchOnlyThreshold) →
        ¬(ms ≥ config.minRelevanceScore) →
        determineInjectionType config memory research = .none)
    ∧ (config.memoryOnlyThreshold = 0.8 → ms = 0.9 → rs = 0.5 →
        determineInjectionType config memory research = .memoryOnly) := by
  have key : determineInjectionType config memory research =
      if ms ≥ config.memoryOnlyThreshold ∧ ms > rs then .memoryOnly
      else if ms ≥ config.combinedThreshold ∧ rs ≥ config.combinedThreshold then .combined
      else if rs ≥ config.researchOnlyThreshold then .researchOnly
      else if ms ≥ config.minRelevanceScore then .memoryOnly
      else .none := by
    simp only [determineInjectionType, hms, hrs]
  have b1 : ms ≥ config.memoryOnlyThreshold ∧ ms > rs →
      determineInjectionType config memory research = .memoryOnly := by
    intro h; rw [key, if_pos h]
  refine ⟨b1, ?_, ?_, ?_, ?_, ?_⟩
  · intro h1 h2; rw [key, if_neg h1, if_pos h2]
  · intro h1 h2 h3; rw [key, if_neg h1, if_neg h2, if_pos h3]
  · intro h1 h2 h3 h4; rw [key, if_neg h1, if_neg h2, if_neg h3, if_pos h4]
  · intro h1 h2 h3 h4; rw [key, if_neg h1, if_neg h2, if_neg h3, if_neg h4]
  · intro ht hm hr
    exact b1 ⟨by rw [hm, ht]; norm_num, by rw [hm, hr]; norm_num⟩

/-- C1 witness: at the concrete inputs of the spec's example the first
branch hypothesis holds and the result is `memory-only`. -/
theorem c1_witness :
    ((0.9 : ℚ) ≥ exClaudeMemConfig.memoryOnlyThreshold ∧ (0.9 : ℚ) > 0.5)
    ∧ determineInjectionType exClaudeMemConfig
        (some exMemoryCandidate) (some exResearchCandidate) = .memoryOnly := by
  refine ⟨by norm_num [exClaudeMemConfig], ?_⟩
  exact (c1_determineInjectionType_precedence exClaudeMemConfig
    (some exMemoryCandidate) (some exResearchCandidate)
    exMemoryCandidate.finalScore exResearchCandidate.finalScore rfl rfl).1
    ⟨by norm_num [exMemoryCandidate, exClaudeMemConfig],
     by norm_num [exMemoryCandidate, exResearchCandidate]⟩

/-- C2: under the default weights, for factors in `[0,1]` the final
score is exactly the weighted sum of the five factors, the project
match contributing weight `0.15` times `1.0` on an exact match and
`0.5` otherwise (hence never `0`); the default weights sum to `1` and
the resulting score lies in `[0,1]`. -/
theorem c2_calculateRelevance_default
    (c : KnowledgeCandidate ℚ)
    (hts : 0 ≤ c.relevance.textSimilarity) (hts1 : c.relevance.textSimilarity ≤ 1)
    (hrc : 0 ≤ c.relevance.recency) (hrc1 : c.relevance.recency ≤ 1)
    (htm : 0 ≤ c.relevance.typeMatch) (htm1 : c.relevance.typeMatch ≤ 1)
    (hcf : 0 ≤ c.relevance.confidence) (hcf1 : c.relevance.confidence ≤ 1) :
    calculateRelevance c DEFAULT_RELEVANCE_WEIGHTS
      = c.relevance.textSimilarity * 0.35
        + c.relevance.recency * 0.15
        + (if c.relevance.projectMatch then (1 : ℚ) else 0.5) * 0.15
        + c.relevance.typeMatch * 0.15
        + c.relevance.confidence * 0.20
    ∧ (if c.relevance.projectMatch then (1 : ℚ) else 0.5) * 0.15 ≠ 0
    ∧ (c.relevance.projectMatch = true → (if c.relevance.projectMatch then (1 : ℚ) else 0.5) = 1)
    ∧ (c.relevance.projectMatch = false → (if c.relevance.projectMatch then (1 : ℚ) else 0.5) = 0.5)
    ∧ (DEFAULT_RELEVANCE_WEIGHTS (α := ℚ)).textSimilarity
        + (DEFAULT_RELEVANCE_WEIGHTS (α := ℚ)).recency
        + (DEFAULT_RELEVANCE_WEIGHTS (α := ℚ)).projectMatch
        + (DEFAULT_RELEVANCE_WEIGHTS (α := ℚ)).typeMatch
        + (DEFAULT_RELEVANCE_WEIGHTS (α := ℚ)).confidence = 1
    ∧ 0 ≤ calculateRelevance c DEFAULT_RELEVANCE_WEIGHTS
    ∧ calculateRelevance c DEFAULT_RELEVANCE_WEIGHTS ≤ 1 := by
  have hscore :
      calculateRelevance c DEFAULT_RELEVANCE_WEIGHTS
        = c.relevance.textSimilarity * 0.35
          + c.relevance.recency * 0.15
          + (if c.relevance.projectMatch then (1 : ℚ) else 0.5) * 0.15
          + c.relevance.typeMatch * 0.15
          + c.relevance.confidence * 0.20 := by
    simp only [calculateRelevance, DEFAULT_RELEVANCE_WEIGHTS]
    rcases hpm : c.relevance.projectMatch with _ | _ <;>
      · simp only [hpm, Bool.false_eq_true, if_true, if_false]
        rw [max_eq_right, min_eq_right] <;> linarith
  refine ⟨hscore, ?_, ?_, ?_, ?_, ?_, ?_⟩
  · rcases hpm : c.relevance.projectMatch with _ | _ <;>
      simp only [hpm, Bool.false_eq_true, if_true, if_false] <;> norm_num
  · intro hpm; simp only [hpm, if_true]
  · intro hpm; simp only [hpm, Bool.false_eq_true, if_false]
  · norm_num [DEFAULT_RELEVANCE_WEIGHTS]
  · rw [hscore]
    rcases hpm : c.relevance.projectMatch with _ | _ <;>
      simp only [hpm, Bool.false_eq_true, if_true, if_false] <;> linarith
  · rw [hscore]
    rcases hpm : c.relevance.projectMatch with _ | _ <;>
      simp only [hpm, Bool.false_eq_true, if_true, if_false] <;> linarith

/-- C2 witness: the theorem applied to a concrete candidate whose five
factors all lie in `[0,1]`. -/
theorem c2_witness :
    ((0 : ℚ) ≤ exMemoryCandidate.relevance.textSimilarity
      ∧ exMemoryCandidate.relevance.textSimilarity ≤ 1)
    ∧ calculateRelevance exMemoryCandidate DEFAULT_RELEVANCE_WEIGHTS
        = exMemoryCandidate.relevance.textSimilarity * 0.35
          + exMemoryCandidate.relevance.recency * 0.15
          + (if exMemoryCandidate.relevance.projectMatch then (1 : ℚ) else 0.5) * 0.15
          + exMemoryCandidate.relevance.typeMatch * 0.15
          + exMemoryCandidate.relevance.confidence * 0.20 := by
  refine ⟨⟨by norm_num [exMemoryCandidate], by norm_num [exMemoryCandidate]⟩, ?_⟩
  exact (c2_calculateRelevance_default exMemoryCandidate
    (by norm_num [exMemoryCandidate]) (by norm_num [exMemoryCandidate])
    (by norm_num [exMemoryCandidate]) (by norm_num [exMemoryCandidate])
    (by norm_num [exMemoryCandidate]) (by norm_num [exMemoryCandidate])
    (by norm_num [exMemoryCandidate]) (by norm_num [exMemoryCandidate])).1

/-- C3: `getInjection` checks its gates in order — session exists,
budgets open, cooldown elapsed, a scored candidate above the
threshold — and short-circuits to `none` with the state untouched (no
record written, no counter changed); on success it returns content and
performs exactly one recording: one `InjectionRecord` appended, the
session's injection and token counters bumped once, and the cooldown
clock reset to `now`. -/
theorem c3_getInjection_gates_and_single_record
    (budget : InjectionBudget) (st : ManagerState) (now : ℤ)
    (freshId sessionId : String) (ctx : Option String) :
    (getSession st.db sessionId = none →
      getInjection budget st now freshId sessionId ctx = (none, st))
    ∧ (∀ session, getSession st.db sessionId = some session →
        canInject budget session = false →
        getInjection budget st now freshId sessionId ctx = (none, st))
    ∧ (∀ session, getSession st.db sessionId = some session →
        canInject budget session = true →
        isInCooldown budget st sessionId now = true →
        getInjection budget st now freshId sessionId ctx = (none, st))
    ∧ (∀ session, getSession st.db sessionId = some session →
        canInject budget session = true →
        isInCooldown budget st sessionId now = false →
        scoredCandidates st now ctx sessionId = [] →
        getInjection budget st now freshId sessionId ctx = (none, st))
    ∧ ((getInjection budget st now freshId sessionId ctx).1 = none →
        (getInjection budget st now freshId sessionId ctx).2 = st)
    ∧ (∀ content, (getInjection budget st now freshId sessionId ctx).1 = some content →
        ∃ rec : InjectionRecord,
          rec.sessionId = sessionId
          ∧ rec.injectedAt = now
          ∧ rec.content = content
          ∧ rec.tokensUsed = ((content.length + 3) / 4 : ℕ)
          ∧ (getInjection budget st now freshId sessionId ctx).2.db.injectionRecords
              = st.db.injectionRecords ++ [rec]
          ∧ (getInjection budget st now freshId sessionId ctx).2.db.sessions
              = st.db.sessions.map (fun s =>
                  if s.id = sessionId then
                    { s with
                      injectionsCount := s.injectionsCount + 1
                      injectionsTokens := s.injectionsTokens + rec.tokensUsed
                      lastActivityAt := now }
                  else s)
          ∧ lookupLastInjection (getInjection budget st now freshId sessionId ctx).2 sessionId
              = some now) := by
  refine ⟨?_, ?_, ?_, ?_, ?_, ?_⟩
  · intro h; simp [getInjection, h]
  · intro s hs hc; simp [getInjection, hs, hc]
  · intro s hs hc hcool; simp [getInjection, hs, hc, hcool]
  · intro s hs hc hcool hscored
    by_cases hemp : (injectionCandidates st sessionId).isEmpty
      <;> simp [getInjection, hs, hc, hcool, hemp, hscored]
  · intro h
    rcases hgs : getSession st.db sessionId with _ | session
    · simp [getInjection, hgs]
    · by_cases hc : canInject budget session = false
      · simp [getInjection, hgs, hc]
      · by_cases hcool : isInCooldown budget st sessionId now
        · simp [getInjection, hgs, hc, hcool]
        · by_cases hemp : (injectionCandidates st sessionId).isEmpty
          · simp [getInjection, hgs, hc, hcool, hemp]
          · rcases hsc : scoredCandidates st now ctx sessionId with _ | ⟨best, rest⟩
            · simp [getInjection, hgs, hc, hcool, hemp, hsc]
            · exfalso
              simp [getInjection, hgs, hc, hcool, hemp, hsc] at h
  · intro content h
    rcases hgs : getSession st.db sessionId with _ | session
    · simp [getInjection, hgs] at h
    · by_cases hc : canInject budget session = false
      · simp [getInjection, hgs, hc] at h
      · by_cases hcool : isInCooldown budget st sessionId now
        · simp [getInjection, hgs, hc, hcool] at h
        · by_cases hemp : (injectionCandidates st sessionId).isEmpty
          · simp [getInjection, hgs, hc, hcool, hemp] at h
          · rcases hsc : scoredCandidates st now ctx sessionId with _ | ⟨best, rest⟩
            · simp [getInjection, hgs, hc, hcool, hemp, hsc] at h
            · have hgi : getInjection budget st now freshId sessionId ctx
                  = (some (formatTaskInjection best.task (some budget.maxTokensPerInjection)),
                     recordInjectionM st now freshId sessionId best.task
                       (formatTaskInjection best.task (some budget.maxTokensPerInjection))) := by
                simp [getInjection, hgs, hc, hcool, hemp, hsc]
              rw [hgi] at h
              have hcontent :
                  formatTaskInjection best.task (some budget.maxTokensPerInjection) = content :=
                Option.some.inj h
              refine ⟨{ id := freshId, taskId := best.task.id, sessionId := sessionId,
                        injectedAt := now, content := content,
                        tokensUsed := ((content.length + 3) / 4 : ℕ), accepted := true },
                      rfl, rfl, rfl, rfl, ?_, ?_, ?_⟩
              · rw [hgi]
                simp [recordInjectionM, dbRecordInjection, updateTaskStatus, hcontent]
              · rw [hgi]
                simp [recordInjectionM, dbRecordInjection, updateTaskStatus, hcontent]
              · rw [hgi]
                simp [recordInjectionM, lookupLastInjection]

/-- C3 witness: the missing-session gate yields `none` with the state
untouched, and a populated state yields content with exactly one
appended record and a reset cooldown clock. -/
theorem c3_witness :
    (getSession exEmptyState.db "s1" = none
      ∧ getInjection exBudget exEmptyState 0 "u0" "s1" none = (none, exEmptyState))
    ∧ ((getInjection exBudget exManagerState 1000 "u1" "s1" none).1
        = some (formatTaskInjection exCompletedTask (some 150))
      ∧ ∃ rec : InjectionRecord,
          rec.sessionId = "s1"
          ∧ (getInjection exBudget exManagerState 1000 "u1" "s1" none).2.db.injectionRecords
              = exManagerState.db.injectionRecords ++ [rec]
          ∧ lookupLastInjection
              (getInjection exBudget exManagerState 1000 "u1" "s1" none).2 "s1"
              = some 1000) := by
  have hnone : getSession exEmptyState.db "s1" = none := rfl
  have htask : (scoreCandidate 1000 none exCompletedTask).task = exCompletedTask := rfl
  have hsc_score : (scoreCandidate 1000 none exCompletedTask).score = 0.8 := by
    norm_num [scoreCandidate, exCompletedTask, exResult, jsOrInt]
  have hfilter : decide ((scoreCandidate 1000 none exCompletedTask).score > 0.5) = true :=
    decide_eq_true (by rw [hsc_score]; norm_num)
  have hcands : injectionCandidates exManagerState "s1" = [exCompletedTask] := rfl
  have hscored : scoredCandidates exManagerState 1000 none "s1"
      = [scoreCandidate 1000 none exCompletedTask] := by
    unfold scoredCandidates
    rw [hcands]
    simp [List.filter_cons, hfilter, List.insertionSort, List.orderedInsert]
  have hres : (getInjection exBudget exManagerState 1000 "u1" "s1" none).1
      = some (formatTaskInjection exCompletedTask (some 150)) := by
    have hgs : getSession exManagerState.db "s1" = some exSession := rfl
    have hcan : canInject exBudget exSession = true := rfl
    have hcool : isInCooldown exBudget exManagerState "s1" 1000 = false := rfl
    have hemp : (injectionCandidates exManagerState "s1").isEmpty = false := by
      rw [hcands]; rfl
    simp only [getInjection, hgs, hcan, hcool, hemp, hscored, Bool.false_eq_true,
      if_false, if_neg, Bool.true_eq_false, htask]
    rfl
  refine ⟨⟨hnone,
    (c3_getInjection_gates_and_single_record exBudget exEmptyState 0 "u0" "s1" none).1 hnone⟩,
    hres, ?_⟩
  obtain ⟨rec, h1, -, -, -, h5, -, h7⟩ :=
    (c3_getInjection_gates_and_single_record exBudget exManagerState 1000 "u1" "s1"
      none).2.2.2.2.2 _ hres
  exact ⟨rec, h1, h5, h7⟩

/-- C4: when the average relevance over all specialist results strictly
exceeds the fixed completion threshold `0.85` and at least two findings
exist, `evaluate` returns `complete = true` with confidence equal to
that average and empty `nextSteps`, without consuming the
text-generation call (second component `false`). -/
theorem c4_evaluate_fast_path
    (directive : ResearchDirective) (findings : List Finding) (gen : Except String String)
    (h2 : 2 ≤ findings.length)
    (havg : (0.85 : ℚ) < calculateAverageRelevance findings) :
    evaluate directive findings gen
      = ({ complete := true
           confidence := calculateAverageRelevance findings
           nextSteps := []
           reasoning := "High confidence findings from multiple specialists" }, false)
    ∧ COMPLETION_THRESHOLD = 0.85 := by
  refine ⟨?_, rfl⟩
  simp only [evaluate]
  rw [if_pos ⟨by omega, by simpa [COMPLETION_THRESHOLD] using havg, h2⟩]

/-- C4 witness: two concrete findings with average relevance `0.9`
take the fast path even though the generation outcome is an error. -/
theorem c4_witness :
    (2 ≤ [exFinding1, exFinding2].length
      ∧ (0.85 : ℚ) < calculateAverageRelevance [exFinding1, exFinding2])
    ∧ evaluate exDirective [exFinding1, exFinding2] (.error "generator down")
        = ({ complete := true
             confidence := calculateAverageRelevance [exFinding1, exFinding2]
             nextSteps := []
             reasoning := "High confidence findings from multiple specialists" }, false) := by
  have havg : (0.85 : ℚ) < calculateAverageRelevance [exFinding1, exFinding2] := by
    norm_num [calculateAverageRelevance, exFinding1, exFinding2]
  exact ⟨⟨by norm_num, havg⟩,
    (c4_evaluate_fast_path exDirective [exFinding1, exFinding2] (.error "generator down")
      (by norm_num) havg).1⟩

/-- C5: `plan` never throws and its result always has at least one
step: a generation failure yields the deterministic fallback plan
(raw query to the fixed specialists `docs`, `code`, `web`), and a
response from which no step parses yields the single default `web`
step on the raw query. -/
theorem c5_plan_always_has_steps
    (directive : ResearchDirective) (gen : Except String String) :
    (plan directive gen).nextSteps ≠ []
    ∧ (∀ e, gen = .error e → plan directive gen = createFallbackPlan directive.query)
    ∧ (createFallbackPlan directive.query).nextSteps
        = [ { specialist := "docs", query := directive.query, priority := 1 }
          , { specialist := "code", query := directive.query, priority := 2 }
          , { specialist := "web", query := directive.query, priority := 3 } ]
    ∧ (∀ r, gen = .ok r → planSteps r = [] →
        (plan directive gen).nextSteps
          = [{ specialist := "web", query := directive.query, priority := 1 }]) := by
  refine ⟨?_, ?_, rfl, ?_⟩
  · cases gen with
    | error e => simp [plan, createFallbackPlan]
    | ok r =>
      simp only [plan, parsePlanResponse]
      by_cases h : (planSteps r).isEmpty
      · simp [h]
      · simp only [h, if_false, Bool.false_eq_true]
        intro hcontra
        exact h (by simp [hcontra])
  · intro e he; subst he; rfl
  · intro r hr hsteps
    subst hr
    simp [plan, parsePlanResponse, hsteps]

/-- C5 witness: the theorem applied to a failed generation and to a
response containing no parsable step. -/
theorem c5_witness :
    (plan exDirective (.error "generator down")).nextSteps ≠ []
    ∧ plan exDirective (.error "generator down") = createFallbackPlan exDirective.query
    ∧ (planSteps "nothing usable here" = []
        ∧ (plan exDirective (.ok "nothing usable here")).nextSteps
            = [{ specialist := "web", query := exDirective.query, priority := 1 }]) := by
  have hsteps : planSteps "nothing usable here" = [] := rfl
  exact ⟨(c5_plan_always_has_steps exDirective (.error "generator down")).1,
    (c5_plan_always_has_steps exDirective (.error "generator down")).2.1 _ rfl,
    ⟨hsteps,
      (c5_plan_always_has_steps exDirective (.ok "nothing usable here")).2.2.2
        "nothing usable here" rfl hsteps⟩⟩

/-- The length of a JS slice with a non-negative end bound. -/
theorem jsSliceTo_length_le (s : String) (e : ℤ) (he : 0 ≤ e) :
    ((jsSliceTo s e).length : ℤ) ≤ e := by
  simp only [jsSliceTo]
  rw [if_neg (by omega : ¬ e < 0)]
  have h1 : (s.data.take ((min e (s.length : ℤ)).toNat)).length
      ≤ (min e (s.length : ℤ)).toNat := List.length_take_le _ _
  have h2 : (min e (s.length : ℤ)) ≤ e := min_le_left _ _
  have h3 : (String.mk (s.data.take ((min e (s.length : ℤ)).toNat))).length
      = (s.data.take ((min e (s.length : ℤ)).toNat)).length := rfl
  rw [h3]
  omega

/-- The truncation idiom keeps a string within its budget whenever the
budget leaves room for the ellipsis. -/
theorem truncTo_length_le (s : String) (r : ℤ) (h : 3 ≤ r) :
    ((truncTo s r).length : ℤ) ≤ r := by
  simp only [truncTo]
  split_ifs with hgt
  · rw [String.length_append]
    have h1 := jsSliceTo_length_le s (r - 3) (by omega)
    have h3 : ("..." : String).length = 3 := rfl
    push_cast
    omega
  · omega

set_option maxRecDepth 100000 in
/-- C6 counterexample: the claim fails as stated — for a candidate
whose project string is 300 characters long, `formatMemoryInjection`
under the default options (ceiling `DEFAULT_BUDGETS.memoryOnly = 80`)
returns a token estimate strictly above the ceiling, because the
template truncates only the summary, never the attribution header. -/
theorem c6_counterexample :
    DEFAULT_BUDGETS.memoryOnly = 80
    ∧ 80 < (formatMemoryInjection exOversizeCandidate 0 {}).tokensEstimate := by
  refine ⟨rfl, ?_⟩
  have hdate : formatRelativeDate 0 0 = "today" := by norm_num [formatRelativeDate]
  have hhead : memoryInjectionHead exOversizeCandidate 0
      = "Continue your work. Relevant context:" ++ "\n" ++ "\n"
        ++ "[Memory] You handled similar " ++ jsShow exOversizeCandidate.content.ctype
        ++ " in " ++ projectTail exOversizeCandidate.project
        ++ " (" ++ "today" ++ "):" := by
    unfold memoryInjectionHead
    rw [show exOversizeCandidate.createdAt = (0 : ℚ) from rfl, hdate]
  simp only [formatMemoryInjection, hhead]
  decide

/-- C6 amended: each template truncates only its summary (or reason)
against the configured ceiling; the token estimate stays within the
ceiling provided the untruncated parts fit their fixed reserves —
for memory-only, header plus 53 within `4·maxTokens` and any `Files:`
line at most 48; for research-only, header plus 63 within the budget
and the footer at most 58; for combined, the 40%/60% split big enough
for both ellipses and header + research header + footer at most 175;
for warning, head plus 63 within the budget and the footer at most
48.  (Unconditionally, as the counterexample shows, the bound can be
exceeded.) -/
theorem c6_token_budget_amended :
    (∀ (c : KnowledgeCandidate ℚ) (now : ℚ) (opts : FormatOptions),
      ((memoryInjectionHead c now).length : ℤ) + 53
          ≤ (opts.maxTokens.getD DEFAULT_BUDGETS.memoryOnly) * 4 →
      (((memoryFilesLine c opts).elim 0 String.length : ℕ) : ℤ) ≤ 48 →
      ((formatMemoryInjection c now opts).tokensEstimate : ℤ)
        ≤ opts.maxTokens.getD DEFAULT_BUDGETS.memoryOnly)
    ∧ (∀ (c : KnowledgeCandidate ℚ) (opts : FormatOptions),
        ((researchInjectionHead c).length : ℤ) + 63
            ≤ (opts.maxTokens.getD DEFAULT_BUDGETS.researchOnly) * 4 →
        ((researchInjectionFooter c opts).length : ℤ) ≤ 58 →
        ((formatResearchInjection c opts).tokensEstimate : ℤ)
          ≤ opts.maxTokens.getD DEFAULT_BUDGETS.researchOnly)
    ∧ (∀ (memory research : KnowledgeCandidate ℚ) (now : ℚ) (opts : FormatOptions),
        83 ≤ ⌊(((opts.maxTokens.getD DEFAULT_BUDGETS.combined) * 4 : ℤ) : ℚ) * 0.4⌋ →
        103 ≤ ⌊(((opts.maxTokens.getD DEFAULT_BUDGETS.combined) * 4 : ℤ) : ℚ) * 0.6⌋ →
        ((combinedInjectionHead memory now).length : ℤ)
            + ((combinedResearchHeader research).length : ℤ)
            + ((combinedInjectionFooter research opts).length : ℤ) ≤ 175 →
        ((formatCombinedInjection memory research now opts).tokensEstimate : ℤ)
          ≤ opts.maxTokens.getD DEFAULT_BUDGETS.combined)
    ∧ (∀ (research : KnowledgeCandidate ℚ) (pivot : PivotSuggestion)
        (currentApproach : Option String) (opts : FormatOptions),
        ((warningInjectionHead pivot currentApproach).length : ℤ) + 63
            ≤ (opts.maxTokens.getD DEFAULT_BUDGETS.warning) * 4 →
        ((warningInjectionFooter research opts).length : ℤ) ≤ 48 →
        ((formatWarningInjection research pivot currentApproach opts).tokensEstimate : ℤ)
          ≤ opts.maxTokens.getD DEFAULT_BUDGETS.warning) := by
  have hnl : ("\n" : String).length = 1 := rfl
  refine ⟨?_, ?_, ?_, ?_⟩
  · intro c now opts h1 h2
    have hs := truncTo_length_le c.content.summary
      ((opts.maxTokens.getD DEFAULT_BUDGETS.memoryOnly) * 4
        - ((memoryInjectionHead c now).length : ℤ) - 50) (by omega)
    simp only [formatMemoryInjection]
    rcases hf : memoryFilesLine c opts with _ | fl
    · simp only [hf]
      simp only [String.length_append]
      omega
    · rw [hf] at h2
      simp only [Option.elim] at h2
      simp only [hf]
      simp only [String.length_append]
      omega
  · intro c opts h1 h2
    have hs := truncTo_length_le c.content.summary
      ((opts.maxTokens.getD DEFAULT_BUDGETS.researchOnly) * 4
        - ((researchInjectionHead c).length : ℤ) - 60) (by omega)
    simp only [formatResearchInjection]
    simp only [String.length_append]
    omega
  · intro memory research now opts h0a h0b hsum
    have hfl : ⌊(((opts.maxTokens.getD DEFAULT_BUDGETS.combined) * 4 : ℤ) : ℚ) * 0.4⌋
        + ⌊(((opts.maxTokens.getD DEFAULT_BUDGETS.combined) * 4 : ℤ) : ℚ) * 0.6⌋
        ≤ (opts.maxTokens.getD DEFAULT_BUDGETS.combined) * 4 := by
      have f1 := Int.floor_le
        ((((opts.maxTokens.getD DEFAULT_BUDGETS.combined) * 4 : ℤ) : ℚ) * 0.4)
      have f2 := Int.floor_le
        ((((opts.maxTokens.getD DEFAULT_BUDGETS.combined) * 4 : ℤ) : ℚ) * 0.6)
      have hq : ((⌊(((opts.maxTokens.getD DEFAULT_BUDGETS.combined) * 4 : ℤ) : ℚ) * 0.4⌋
            + ⌊(((opts.maxTokens.getD DEFAULT_BUDGETS.combined) * 4 : ℤ) : ℚ) * 0.6⌋ : ℤ) : ℚ)
          ≤ (((opts.maxTokens.getD DEFAULT_BUDGETS.combined) * 4 : ℤ) : ℚ) := by
        push_cast at f1 f2 ⊢
        linarith
      exact_mod_cast hq
    have hms := truncTo_length_le memory.content.summary
      (⌊(((opts.maxTokens.getD DEFAULT_BUDGETS.combined) * 4 : ℤ) : ℚ) * 0.4⌋ - 80)
      (by omega)
    have hrs := truncTo_length_le research.content.summary
      (⌊(((opts.maxTokens.getD DEFAULT_BUDGETS.combined) * 4 : ℤ) : ℚ) * 0.6⌋ - 100)
      (by omega)
    simp only [formatCombinedInjection]
    simp only [String.length_append]
    omega
  · intro research pivot currentApproach opts h1 h2
    have hwhy : ("**Why**: " : String).length = 9 := rfl
    have hs := truncTo_length_le pivot.reason
      ((opts.maxTokens.getD DEFAULT_BUDGETS.warning) * 4
        - ((warningInjectionHead pivot currentApproach).length : ℤ) - 60) (by omega)
    simp only [formatWarningInjection]
    simp only [String.length_append]
    omega

set_option maxRecDepth 100000 in
/-- C6 witness: the amended memory-only bound applied to a candidate
with modest metadata under the default options. -/
theorem c6_witness :
    ((((memoryInjectionHead exSmallCandidate 0).length : ℤ) + 53
        ≤ (({} : FormatOptions).maxTokens.getD DEFAULT_BUDGETS.memoryOnly) * 4)
      ∧ ((((memoryFilesLine exSmallCandidate {}).elim 0 String.length : ℕ) : ℤ) ≤ 48))
    ∧ ((formatMemoryInjection exSmallCandidate 0 {}).tokensEstimate : ℤ)
        ≤ ({} : FormatOptions).maxTokens.getD DEFAULT_BUDGETS.memoryOnly := by
  have hdate : formatRelativeDate 0 0 = "today" := by norm_num [formatRelativeDate]
  have hhead : memoryInjectionHead exSmallCandidate 0
      = "Continue your work. Relevant context:" ++ "\n" ++ "\n"
        ++ "[Memory] You handled similar " ++ jsShow exSmallCandidate.content.ctype
        ++ " in " ++ projectTail exSmallCandidate.project
        ++ " (" ++ "today" ++ "):" := by
    unfold memoryInjectionHead
    rw [show exSmallCandidate.createdAt = (0 : ℚ) from rfl, hdate]
  have ha : (((memoryInjectionHead exSmallCandidate 0).length : ℤ) + 53
      ≤ (({} : FormatOptions).maxTokens.getD DEFAULT_BUDGETS.memoryOnly) * 4) := by
    rw [hhead]; decide
  have hb : ((((memoryFilesLine exSmallCandidate {}).elim 0 String.length : ℕ) : ℤ) ≤ 48) := by
    decide
  exact ⟨⟨ha, hb⟩, c6_token_budget_amended.1 exSmallCandidate 0 {} ha hb⟩

/-- C7: `getQueuedTasks` returns at most `limit` tasks, all in `queued`
status, ordered by priority descending with creation time ascending
(FIFO) within equal priority; the concrete batch with priorities
`[3,7,7,1]` enqueued in that order dequeues as
`[7(first), 7(second), 3, 1]`. -/
theorem c7_getQueuedTasks_order (db : DbState) (limit : ℕ) :
    (∀ t ∈ getQueuedTasks db limit, t.status = .queued)
    ∧ (getQueuedTasks db limit).length ≤ limit
    ∧ (getQueuedTasks db limit).Sorted taskOrder
    ∧ (getQueuedTasks exQueueDb 10).map ResearchTask.id = ["tB", "tC", "tA", "tD"] := by
  refine ⟨?_, ?_, ?_, by decide⟩
  · intro t ht
    have h1 := List.mem_of_mem_take ht
    have h2 := (List.perm_insertionSort taskOrder
      (db.tasks.filter (fun t => decide (t.status = .queued)))).mem_iff.mp h1
    have h3 := List.of_mem_filter h2
    simpa using h3
  · exact List.length_take_le limit _
  · exact (List.sorted_insertionSort taskOrder _).sublist (List.take_sublist _ _)

/-- C7 witness: membership and status for the head of the concrete
dequeue batch. -/
theorem c7_witness :
    mkQueuedTask "tB" 7 1 ∈ getQueuedTasks exQueueDb 10
    ∧ (mkQueuedTask "tB" 7 1).status = .queued := by
  have hmem : mkQueuedTask "tB" 7 1 ∈ getQueuedTasks exQueueDb 10 := by decide
  exact ⟨hmem, (c7_getQueuedTasks_order exQueueDb 10).1 _ hmem⟩

/-- C8: whenever the trimmed prompt matches a negative pattern,
`analyzePrompt` returns `shouldResearch = false` with confidence `0`
and priority `0` — the negative check runs before the length guard,
the question patterns and the question-mark fallback, so the result
stands even for prompts that contain `?` or would match a positive
pattern. -/
theorem c8_negative_patterns_short_circuit (prompt : String)
    (h : matchesNegativePattern (jsTrim prompt) = true) :
    analyzePrompt prompt
      = { shouldResearch := false, query := none, depth := .quick, priority := 0,
          confidence := 0, reason := "Matches negative pattern (not a question)" }
    ∧ (analyzePrompt prompt).shouldResearch = false
    ∧ (analyzePrompt prompt).confidence = 0
    ∧ (analyzePrompt prompt).priority = 0 := by
  have he : analyzePrompt prompt
      = { shouldResearch := false, query := none, depth := .quick, priority := 0,
          confidence := 0, reason := "Matches negative pattern (not a question)" } := by
    simp only [analyzePrompt, h, if_true]
  exact ⟨he, by rw [he], by rw [he], by rw [he]⟩

/-- C8 witness: `"thanks, that worked?"` carries a question mark yet
matches the acknowledgement negative pattern, so no research fires. -/
theorem c8_witness :
    matchesNegativePattern (jsTrim "thanks, that worked?") = true
    ∧ (analyzePrompt "thanks, that worked?").shouldResearch = false
    ∧ (analyzePrompt "thanks, that worked?").confidence = 0 := by
  have h : matchesNegativePattern (jsTrim "thanks, that worked?") = true := by decide
  exact ⟨h, (c8_negative_patterns_short_circuit "thanks, that worked?" h).2.1,
    (c8_negative_patterns_short_circuit "thanks, that worked?" h).2.2.1⟩

/-- C9: the recency factor is `exp(-ageDays / 10)` with
`ageDays = ageMs / (1000·60·60·24)`: a candidate created now scores
exactly `1`, the factor is strictly decreasing in age and continuous
(no discontinuities), and consequently the final knowledge score of an
otherwise-identical candidate is monotonically non-increasing in age. -/
theorem c9_recency_exponential_decay :
    (∀ createdAt now : ℝ, calculateRecencyScore createdAt now
        = Real.exp (-((now - createdAt) / (1000 * 60 * 60 * 24)) / 10))
    ∧ (∀ now : ℝ, calculateRecencyScore now now = 1)
    ∧ (∀ c1 c2 now : ℝ, c1 < c2 →
        calculateRecencyScore c1 now < calculateRecencyScore c2 now)
    ∧ (∀ now : ℝ, Continuous fun createdAt => calculateRecencyScore createdAt now)
    ∧ (∀ (c : KnowledgeCandidate ℝ) (c1 c2 now : ℝ), c1 ≤ c2 →
        scoreAtCreation c c1 now ≤ scoreAtCreation c c2 now) := by
  have hmono : ∀ c1 c2 now : ℝ, c1 ≤ c2 →
      calculateRecencyScore c1 now ≤ calculateRecencyScore c2 now := by
    intro c1 c2 now h
    simp only [calculateRecencyScore]
    exact Real.exp_le_exp.mpr (by linarith)
  refine ⟨fun _ _ => rfl, ?_, ?_, ?_, ?_⟩
  · intro now; simp [calculateRecencyScore]
  · intro c1 c2 now h
    simp only [calculateRecencyScore]
    exact Real.exp_lt_exp.mpr (by linarith)
  · intro now
    simp only [calculateRecencyScore]
    fun_prop
  · intro c c1 c2 now h
    have hr := hmono c1 c2 now h
    simp only [scoreAtCreation, calculateRelevance, DEFAULT_RELEVANCE_WEIGHTS]
    refine min_le_min le_rfl (max_le_max le_rfl ?_)
    linarith [hr]

/-- C9 witness: the strict-decrease and score-monotonicity parts of the
theorem applied at concrete ages. -/
theorem c9_witness :
    ((0 : ℝ) < 1 ∧ calculateRecencyScore 0 5 < calculateRecencyScore 1 5)
    ∧ ((0 : ℝ) ≤ 1 ∧ scoreAtCreation exCandidateR 0 5 ≤ scoreAtCreation exCandidateR 1 5) :=
  ⟨⟨by norm_num, c9_recency_exponential_decay.2.2.1 0 1 5 (by norm_num)⟩,
   ⟨by norm_num, c9_recency_exponential_decay.2.2.2.2 exCandidateR 0 1 5 (by norm_num)⟩⟩

/-- C10: every candidate produced by `searchUnifiedKnowledge` carries
the constant `textSimilarity = 0.7` (the row constructor does not even
receive the query), so under the default weights the text-similarity
term contributes the fixed `0.7 × 0.35 = 0.245` to the pre-clamp score
of every candidate, and two rows agreeing on epoch, type, project and
confidence get identical final scores no matter how their text
differs. -/
theorem c10_textSimilarity_constant :
    (∀ (now : ℝ) (project context : Option String) (row : ObservationRow),
      (rowToCandidate now project context DEFAULT_RELEVANCE_WEIGHTS row).relevance.textSimilarity
        = 0.7)
    ∧ ((0.7 : ℝ) * 0.35 = 0.245)
    ∧ (∀ (now : ℝ) (project context : Option String) (row : ObservationRow),
        (rowToCandidate now project context DEFAULT_RELEVANCE_WEIGHTS row).finalScore
          = min 1 (max 0 (0.245
              + (rowToCandidate now project context DEFAULT_RELEVANCE_WEIGHTS row).relevance.recency * 0.15
              + (if (rowToCandidate now project context DEFAULT_RELEVANCE_WEIGHTS row).relevance.projectMatch
                  then (1 : ℝ) else 0.5) * 0.15
              + (rowToCandidate now project context DEFAULT_RELEVANCE_WEIGHTS row).relevance.typeMatch * 0.15
              + (rowToCandidate now project context DEFAULT_RELEVANCE_WEIGHTS row).relevance.confidence * 0.20)))
    ∧ (∀ (now : ℝ) (project context : Option String) (r1 r2 : ObservationRow),
        r1.created_at_epoch = r2.created_at_epoch → r1.rtype = r2.rtype →
        r1.project = r2.project → r1.confidence = r2.confidence →
        (rowToCandidate now project context DEFAULT_RELEVANCE_WEIGHTS r1).finalScore
          = (rowToCandidate now project context DEFAULT_RELEVANCE_WEIGHTS r2).finalScore)
    ∧ (∀ (rows : List ObservationRow) (now : ℝ) (limit : ℕ)
        (project context : Option String) (c : KnowledgeCandidate ℝ),
        c ∈ searchUnifiedKnowledge rows now limit project context {} →
        c.relevance.textSimilarity = 0.7) := by
  refine ⟨fun _ _ _ _ => rfl, by norm_num, ?_, ?_, ?_⟩
  · intro now project context row
    simp only [rowToCandidate, calculateRelevance, DEFAULT_RELEVANCE_WEIGHTS]
    congr 2
    ring
  · intro now project context r1 r2 h1 h2 h3 h4
    simp only [rowToCandidate, calculateRelevance, h1, h2, h3, h4]
  · intro rows now limit project context c hc
    simp only [searchUnifiedKnowledge] at hc
    have hc' := List.mem_of_mem_take hc
    have hperm := List.perm_insertionSort
      (fun a b : KnowledgeCandidate ℝ => b.finalScore ≤ a.finalScore)
      (rows.map (rowToCandidate now project context (mergeWeights {})))
    have hc'' := hperm.mem_iff.mp hc'
    obtain ⟨row, -, rfl⟩ := List.mem_map.mp hc''
    rfl

/-- C10 witness: two concrete rows differing only in their text get the
same final score, and a concrete candidate in the search output has
text similarity `0.7`. -/
theorem c10_witness :
    (exRow.created_at_epoch = exRowOtherText.created_at_epoch
      ∧ (rowToCandidate 0 none none DEFAULT_RELEVANCE_WEIGHTS exRow).finalScore
          = (rowToCandidate 0 none none DEFAULT_RELEVANCE_WEIGHTS exRowOtherText).finalScore)
    ∧ (rowToCandidate 0 none none (mergeWeights {}) exRow
          ∈ searchUnifiedKnowledge [exRow] 0 20 none none {}
        ∧ (rowToCandidate 0 none none (mergeWeights {}) exRow).relevance.textSimilarity = 0.7) := by
  have hmem : rowToCandidate 0 none none (mergeWeights {}) exRow
      ∈ searchUnifiedKnowledge [exRow] 0 20 none none {} := by
    have he : searchUnifiedKnowledge [exRow] 0 20 none none {}
        = [rowToCandidate 0 none none (mergeWeights {}) exRow] := rfl
    rw [he]
    exact List.mem_singleton_self _
  exact ⟨⟨rfl, c10_textSimilarity_constant.2.2.2.1 0 none none exRow exRowOtherText
            rfl rfl rfl rfl⟩,
         ⟨hmem, c10_textSimilarity_constant.2.2.2.2 [exRow] 0 20 none none _ hmem⟩⟩

end ResearchTeam
